import Mathlib

/-!
A shallow embedding of the untis_changes core (src/main.rs): the catalog &
period extractor (`parse_timetable` and its helpers) and the deviation
renderer (`Period.speakable_text` plus the sort/filter/join pipeline of the
`speakable` route handler).  Machine `u64` values are modelled as `Nat`,
JSON numbers as `Int` so that `as_u64` can fail on negative values, and all
fallible code returns `Except String`.
-/

/-! ## JSON values (the fragment of serde_json::Value the core touches) -/

/-- A JSON value.  Numbers are integers (`as_u64` fails on negatives); the
service payloads the core consumes contain no floats. -/
inductive Json where
  | null
  | bool (b : Bool)
  | num (n : Int)
  | str (s : String)
  | arr (elems : List Json)
  | obj (fields : List (String × Json))

/-- `Value::get(key)` on an object: first field with the given key, `None`
on non-objects. -/
def Json.get : Json → String → Option Json
  | .obj fields, k => (fields.find? (fun p => p.1 == k)).map (·.2)
  | _, _ => none

/-- `Value::as_u64`: the number when it is a non-negative integer. -/
def Json.asU64 : Json → Option Nat
  | .num n => if 0 ≤ n then some n.toNat else none
  | _ => none

/-- `Value::as_str`. -/
def Json.asStr : Json → Option String
  | .str s => some s
  | _ => none

/-- `Value::as_bool`. -/
def Json.asBool : Json → Option Bool
  | .bool b => some b
  | _ => none

/-- `Value::as_array`. -/
def Json.asArr : Json → Option (List Json)
  | .arr xs => some xs
  | _ => none

/-- Rust's `Option::ok_or(anyhow!(msg))?`. -/
def okOr : Option α → String → Except String α
  | some a, _ => .ok a
  | none, msg => .error msg

/-! ## Dates and times (chrono::NaiveDate / chrono::NaiveTime) -/

/-- A calendar date (chrono `NaiveDate`); ordering is lexicographic on
(year, month, day). -/
structure Date where
  year : Nat
  month : Nat
  day : Nat
deriving DecidableEq

/-- A time of day (chrono `NaiveTime`); the core always builds it with
second 0. -/
structure Time where
  hour : Nat
  minute : Nat
  second : Nat
deriving DecidableEq

/-- chrono `NaiveTime::from_hms_opt`: `None` outside valid clock ranges. -/
def Time.from_hms_opt (h m s : Nat) : Option Time :=
  if h ≤ 23 ∧ m ≤ 59 ∧ s ≤ 59 then some ⟨h, m, s⟩ else none

/-- Two-digit zero padding, as chrono's `%H` / `%M` format specifiers. -/
def pad2 (n : Nat) : String :=
  if n < 10 then "0" ++ Nat.repr n else Nat.repr n

/-- chrono's `format("%H:%M")`. -/
def Time.format_hm (t : Time) : String :=
  pad2 t.hour ++ ":" ++ pad2 t.minute

/-- Gregorian leap-year rule (chrono). -/
def isLeapYear (y : Nat) : Bool :=
  (y % 4 == 0 && y % 100 != 0) || y % 400 == 0

/-- Days in a month (chrono). -/
def daysInMonth (y m : Nat) : Nat :=
  if m = 2 then (if isLeapYear y then 29 else 28)
  else if m = 4 ∨ m = 6 ∨ m = 9 ∨ m = 11 then 30
  else 31

/-- `NaiveDate::parse_from_str(&n.to_string(), "%Y%m%d")` for the 8-digit
`YYYYMMDD` integers the service sends: splits off year, month and day and
rejects invalid calendar values. -/
def parseDateYYYYMMDD (n : Nat) : Except String Date :=
  if (Nat.repr n).length = 8 then
    let y := n / 10000
    let m := (n / 100) % 100
    let d := n % 100
    if 1 ≤ m ∧ m ≤ 12 ∧ 1 ≤ d ∧ d ≤ daysInMonth y m then .ok ⟨y, m, d⟩
    else .error "input is out of range"
  else .error "premature end of input"

/-- `str::parse::<u32>().unwrap()` on a slice of decimal digits (the
slices below only ever hold digits, so the `unwrap` cannot fire). -/
def digitsToNat (ds : List Char) : Nat :=
  ds.foldl (fun n c => n * 10 + (c.toNat - '0'.toNat)) 0

/-- `json_value_to_time` (src/main.rs:405-419): read the value as `u64`,
take its decimal string representation (`Nat.repr n` is exactly
`(Nat.toDigits 10 n).asString`, handled here as the digit list), split it
`HH|MM` (length 4) or `H|MM` (length 3) as the Rust `&time[0..2]` /
`&time[2..4]` (resp. `[0..1]`/`[1..3]`) slices do, reject other lengths,
and validate via `from_hms_opt`. -/
def json_value_to_time (value : Json) : Except String Time := do
  let n ← okOr value.asU64 "requested time is not of type 'u64'"
  let time := Nat.toDigits 10 n
  let (hours, minutes) ←
    if time.length = 4 then pure (time.take 2, time.drop 2)
    else if time.length = 3 then pure (time.take 1, time.drop 1)
    else Except.error ("Invalid length for time (" ++ time.asString ++ ")")
  okOr (Time.from_hms_opt (digitsToNat hours) (digitsToNat minutes) 0)
    ("Invalid time 'start_time' " ++ hours.asString ++ " " ++ minutes.asString)

/-! ## Domain model (the Rust structs) -/

/-- Per-assignment state (`ElementState`). -/
inductive ElementState where
  | Regular
  | Absent
  | Substituted
deriving DecidableEq

/-- Per-period state (`PeriodState`). -/
inductive PeriodState where
  | Standard
  | Substitution
  | Cancel
deriving DecidableEq

/-- Catalog room record (`OriginalRoom`). -/
structure OriginalRoom where
  id : Nat
  name : String
  long_name : String
  displayname : String
  alternatename : String
  can_view_timetable : Bool
  room_capacity : Nat
deriving DecidableEq

/-- A period's room assignment (`Room`). -/
structure Room where
  id : Nat
  original_room_id : Nat
  original_room : Option OriginalRoom
  missing : Bool
  state : ElementState
  name : String
  long_name : String
  displayname : String
  alternatename : String
  can_view_timetable : Bool
  room_capacity : Nat
deriving DecidableEq

/-- Catalog teacher record (`OriginalTeacher`); `ext_key` models the source
field `extern_key` (JSON key `"externKey"`). -/
structure OriginalTeacher where
  id : Nat
  name : String
  can_view_timetable : Bool
  ext_key : String
  room_capacity : Nat
deriving DecidableEq

/-- A period's teacher assignment (`Teacher`). -/
structure Teacher where
  id : Nat
  original_teacher_id : Nat
  original_teacher : Option OriginalTeacher
  missing : Bool
  state : ElementState
  name : String
  can_view_timetable : Bool
  ext_key : String
  room_capacity : Nat
deriving DecidableEq

/-- Catalog subject record (`OriginalSubject`). -/
structure OriginalSubject where
  id : Nat
  name : String
  long_name : String
  display_name : String
  alternate_name : String
  back_color : String
  can_view_timetable : Bool
  room_capacity : Nat
  fore_color : Option String
deriving DecidableEq

/-- A period's subject assignment (`Subject`). -/
structure Subject where
  id : Nat
  original_subject_id : Nat
  original_subject : Option OriginalSubject
  missing : Bool
  state : ElementState
  name : String
  long_name : String
  display_name : String
  alternate_name : String
  back_color : String
  can_view_timetable : Bool
  room_capacity : Nat
  fore_color : Option String
deriving DecidableEq

/-- One timetable slot (`Period`). -/
structure Period where
  lesson_text : String
  text : String
  info : String
  substitution_text : String
  date : Date
  start_time : Time
  end_time : Time
  state : PeriodState
  teacher : Option Teacher
  subject : Option Subject
  room : Option Room
deriving DecidableEq

/-! ## The deviation renderer (`Period::speakable_text`, src/main.rs:306-374) -/

/-- `Period::speakable_text`: the per-period rendering rule.  Mirrors the
Rust `match` on subject presence and `PeriodState`, with the substitution
branch built by successive `push_str` calls. -/
def Period.speakable_text (p : Period) : String :=
  match p.subject with
  | none => ""
  | some subject =>
    match p.state with
    | PeriodState.Cancel =>
        subject.long_name ++ " fällt zwischen " ++ p.start_time.format_hm
          ++ " und " ++ p.end_time.format_hm ++ " Uhr aus!"
    | PeriodState.Standard =>
        "Im Fach " ++ subject.long_name ++ " zwischen " ++ p.start_time.format_hm
          ++ " und " ++ p.end_time.format_hm ++ " Uhr gibt es keine Änderungen!"
    | PeriodState.Substitution =>
        let out := "Änderung bei " ++ subject.long_name ++ " zwischen "
          ++ p.start_time.format_hm ++ " und " ++ p.end_time.format_hm ++ " Uhr: "
        let out := out ++
          (match p.teacher with
           | none => ""
           | some teacher =>
             match teacher.state with
             | ElementState.Regular => ""
             | ElementState.Absent =>
               match teacher.original_teacher with
               | none => ""
               | some original_teacher =>
                   "Unterricht ohne Lehrer (von '" ++ original_teacher.name ++ "'); "
             | ElementState.Substituted =>
               match teacher.original_teacher with
               | none => ""
               | some original_teacher =>
                   "Lehrerwechsel von '" ++ original_teacher.name ++ "' zu '"
                     ++ teacher.name ++ "'; ")
        let out := out ++
          (match p.room with
           | none => ""
           | some room =>
             match room.state with
             | ElementState.Regular => ""
             | ElementState.Absent =>
               match room.original_room with
               | none => ""
               | some original_room =>
                   "Unterricht ohne Raum (von '" ++ original_room.long_name ++ "'); "
             | ElementState.Substituted =>
               match room.original_room with
               | none => ""
               | some original_room =>
                   "Raumwechsel von '" ++ original_room.long_name ++ "' zu '"
                     ++ room.long_name ++ "'; ")
        out ++ p.substitution_text

/-- The teacher sub-clause of the substitution branch, as the spec's
per-period rendering rule names it (the `if let Some(teacher)` block). -/
def teacherClause : Option Teacher → String
  | none => ""
  | some teacher =>
    match teacher.state with
    | ElementState.Regular => ""
    | ElementState.Absent =>
      match teacher.original_teacher with
      | none => ""
      | some original_teacher =>
          "Unterricht ohne Lehrer (von '" ++ original_teacher.name ++ "'); "
    | ElementState.Substituted =>
      match teacher.original_teacher with
      | none => ""
      | some original_teacher =>
          "Lehrerwechsel von '" ++ original_teacher.name ++ "' zu '"
            ++ teacher.name ++ "'; "

/-- The room sub-clause of the substitution branch (the `if let Some(room)`
block). -/
def roomClause : Option Room → String
  | none => ""
  | some room =>
    match room.state with
    | ElementState.Regular => ""
    | ElementState.Absent =>
      match room.original_room with
      | none => ""
      | some original_room =>
          "Unterricht ohne Raum (von '" ++ original_room.long_name ++ "'); "
    | ElementState.Substituted =>
      match room.original_room with
      | none => ""
      | some original_room =>
          "Raumwechsel von '" ++ original_room.long_name ++ "' zu '"
            ++ room.long_name ++ "'; "

/-! ## The `speakable` pipeline (src/main.rs:706-714) -/

/-- Lexicographic order on equal-length `Nat` lists (how chrono compares
`NaiveDateTime` componentwise). -/
def lexLe : List Nat → List Nat → Bool
  | [], _ => true
  | _ :: _, [] => false
  | x :: xs, y :: ys => if x < y then true else if y < x then false else lexLe xs ys

/-- The sort key of `sort_by_key`: `NaiveDateTime::new(period.date,
period.start_time)`, i.e. (date, start time) lexicographically. -/
def periodKey (p : Period) : List Nat :=
  [p.date.year, p.date.month, p.date.day,
   p.start_time.hour, p.start_time.minute, p.start_time.second]

/-- The comparison the pipeline sorts by. -/
def periodKeyLe (a b : Period) : Bool :=
  lexLe (periodKey a) (periodKey b)

/-- The rendering pipeline of the `speakable` handler: stable-sort by
(date, start time), drop `Standard` periods, keep today's periods, render
each and join with newlines.  (Rust's `sort_by_key` is a stable sort; a
stable sort is uniquely determined by the key order, so `mergeSort` models
it exactly.) -/
def speakable (periods : List Period) (today : Date) : String :=
  let sorted := periods.mergeSort periodKeyLe
  String.intercalate "\n"
    (((sorted.filter (fun p => p.state != PeriodState.Standard)).filter
        (fun p => p.date == today)).map Period.speakable_text)

/-! ## The catalog & period extractor (`parse_timetable`, src/main.rs:421-666) -/

/-- `HashMap::insert` on a `u64`-keyed map modelled as an association list:
the new binding shadows (replaces) any previous binding of the key. -/
def hmInsert (m : List (Nat × α)) (k : Nat) (v : α) : List (Nat × α) :=
  (k, v) :: m.filter (fun p => p.1 != k)

/-- `HashMap::get`. -/
def hmGet (m : List (Nat × α)) (k : Nat) : Option α :=
  (m.find? (fun p => p.1 == k)).map (·.2)

/-- The three reference maps `parse_timetable` populates (`rooms`,
`teachers`, `subjects`). -/
structure Catalog where
  rooms : List (Nat × OriginalRoom)
  teachers : List (Nat × OriginalTeacher)
  subjects : List (Nat × OriginalSubject)

/-- serde deserialization of `OriginalTeacher` from a JSON value: every
field is required with the right type (unknown fields are ignored). -/
def fromValueOriginalTeacher (j : Json) : Except String OriginalTeacher := do
  let id ← okOr ((j.get "id").bind Json.asU64) "invalid field 'id'"
  let name ← okOr ((j.get "name").bind Json.asStr) "invalid field 'name'"
  let cvt ← okOr ((j.get "canViewTimetable").bind Json.asBool) "invalid field 'canViewTimetable'"
  let ek ← okOr ((j.get "externKey").bind Json.asStr) "invalid field 'externKey'"
  let rc ← okOr ((j.get "roomCapacity").bind Json.asU64) "invalid field 'roomCapacity'"
  pure ⟨id, name, cvt, ek, rc⟩

/-- serde deserialization of `OriginalRoom`. -/
def fromValueOriginalRoom (j : Json) : Except String OriginalRoom := do
  let id ← okOr ((j.get "id").bind Json.asU64) "invalid field 'id'"
  let name ← okOr ((j.get "name").bind Json.asStr) "invalid field 'name'"
  let ln ← okOr ((j.get "longName").bind Json.asStr) "invalid field 'longName'"
  let dn ← okOr ((j.get "displayname").bind Json.asStr) "invalid field 'displayname'"
  let an ← okOr ((j.get "alternatename").bind Json.asStr) "invalid field 'alternatename'"
  let cvt ← okOr ((j.get "canViewTimetable").bind Json.asBool) "invalid field 'canViewTimetable'"
  let rc ← okOr ((j.get "roomCapacity").bind Json.asU64) "invalid field 'roomCapacity'"
  pure ⟨id, name, ln, dn, an, cvt, rc⟩

/-- serde deserialization of `OriginalSubject` (`foreColor` is an `Option`
and so tolerates absence). -/
def fromValueOriginalSubject (j : Json) : Except String OriginalSubject := do
  let id ← okOr ((j.get "id").bind Json.asU64) "invalid field 'id'"
  let name ← okOr ((j.get "name").bind Json.asStr) "invalid field 'name'"
  let ln ← okOr ((j.get "longName").bind Json.asStr) "invalid field 'longName'"
  let dn ← okOr ((j.get "displayname").bind Json.asStr) "invalid field 'displayname'"
  let an ← okOr ((j.get "alternatename").bind Json.asStr) "invalid field 'alternatename'"
  let bc ← okOr ((j.get "backColor").bind Json.asStr) "invalid field 'backColor'"
  let cvt ← okOr ((j.get "canViewTimetable").bind Json.asBool) "invalid field 'canViewTimetable'"
  let rc ← okOr ((j.get "roomCapacity").bind Json.asU64) "invalid field 'roomCapacity'"
  let fc ← match j.get "foreColor" with
    | none => pure none
    | some v => do
        let s ← okOr v.asStr "invalid field 'foreColor'"
        pure (some s)
  pure ⟨id, name, ln, dn, an, bc, cvt, rc, fc⟩

/-- One iteration of the catalog-population loop (src/main.rs:440-470):
read the type tag and id, dispatch on the tag, and on an unrecognized tag
log and skip (the catalog is returned unchanged). -/
def catalogStep (cats : Catalog) (element : Json) : Except String Catalog := do
  let tv ← okOr (element.get "type") "one of the elements does not have a type associated with it"
  let element_type ← okOr tv.asU64 "one of the elements' type is not of type 'u64'"
  let iv ← okOr (element.get "id") "one of the elements does not have an id associated with it"
  let element_id ← okOr iv.asU64 "one of the elements' id is not of type 'u64'"
  if element_type = 2 then do
    let teacher ← fromValueOriginalTeacher element
    pure { cats with teachers := hmInsert cats.teachers element_id teacher }
  else if element_type = 3 then do
    let subject ← fromValueOriginalSubject element
    pure { cats with subjects := hmInsert cats.subjects element_id subject }
  else if element_type = 4 then do
    let room ← fromValueOriginalRoom element
    pure { cats with rooms := hmInsert cats.rooms element_id room }
  else pure cats

/-- The whole catalog-population loop. -/
def catalogSteps (cats : Catalog) (elements : List Json) : Except String Catalog :=
  elements.foldlM catalogStep cats

/-- The `state` string of a period's assignment element, restricted to
`ABSENT`/`REGULAR`/`SUBSTITUTED` (src/main.rs:508-518). -/
def readState (element : Json) : Except String ElementState := do
  let sv ← okOr (element.get "state") "field 'state' missing on element"
  let s ← okOr sv.asStr "field 'state' not of type string"
  match s with
  | "ABSENT" => pure ElementState.Absent
  | "REGULAR" => pure ElementState.Regular
  | "SUBSTITUTED" => pure ElementState.Substituted
  | _ => Except.error "Unknown type of 'state' on element"

/-- The required boolean `missing` field of an assignment element. -/
def readMissing (element : Json) : Except String Bool := do
  let mv ← okOr (element.get "missing") "field 'missing' missing on element"
  okOr mv.asBool "field 'missing' not of type boolean"

/-- The teacher-assignment construction (src/main.rs:520-538): the current
id must resolve in the teacher map, the original id is looked up optionally
for the snapshot. -/
def buildTeacher (teachers : List (Nat × OriginalTeacher)) (element : Json)
    (id original_id : Nat) (state : ElementState) : Except String Teacher := do
  let teacher_info ← okOr (hmGet teachers id)
    ("Teacher with id " ++ Nat.repr id ++ " has not been found!")
  let missing ← readMissing element
  pure { id, original_teacher_id := original_id,
         original_teacher := hmGet teachers original_id,
         state, missing,
         name := teacher_info.name,
         can_view_timetable := teacher_info.can_view_timetable,
         ext_key := teacher_info.ext_key,
         room_capacity := teacher_info.room_capacity }

/-- The subject's `backColor`: the element's own value when present, else
the catalog subject's (src/main.rs:558-564). -/
def subjBackColor (subject_info : OriginalSubject) (element : Json) : Except String String :=
  match element.get "backColor" with
  | none => pure subject_info.back_color
  | some val => okOr val.asStr "field 'backColor' not of type 'str'!"

/-- The subject's optional `foreColor` (src/main.rs:567-574). -/
def subjForeColor (element : Json) : Except String (Option String) :=
  match element.get "foreColor" with
  | none => pure none
  | some val => do
      let s ← okOr val.asStr "'foreColor' is not of type 'str'!"
      pure (some s)

/-- The subject-assignment construction (src/main.rs:540-576). -/
def buildSubject (subjects : List (Nat × OriginalSubject)) (element : Json)
    (id original_id : Nat) (state : ElementState) : Except String Subject := do
  let subject_info ← okOr (hmGet subjects id)
    ("Subject with id " ++ Nat.repr id ++ " has not been found!")
  let missing ← readMissing element
  let back_color ← subjBackColor subject_info element
  let fore_color ← subjForeColor element
  pure { id, original_subject_id := original_id,
         original_subject := hmGet subjects original_id,
         missing, state,
         name := subject_info.name,
         long_name := subject_info.long_name,
         display_name := subject_info.display_name,
         alternate_name := subject_info.alternate_name,
         back_color,
         can_view_timetable := subject_info.can_view_timetable,
         room_capacity := subject_info.room_capacity,
         fore_color }

/-- The room-assignment construction (src/main.rs:577-598). -/
def buildRoom (rooms : List (Nat × OriginalRoom)) (element : Json)
    (id original_id : Nat) (state : ElementState) : Except String Room := do
  let room_info ← okOr (hmGet rooms id)
    ("Room with id " ++ Nat.repr id ++ " has not been found!")
  let missing ← readMissing element
  pure { id, original_room_id := original_id,
         original_room := hmGet rooms original_id,
         missing, state,
         name := room_info.name,
         long_name := room_info.long_name,
         displayname := room_info.displayname,
         alternatename := room_info.alternatename,
         can_view_timetable := room_info.can_view_timetable,
         room_capacity := room_info.room_capacity }

/-- The three mutable assignment slots of the per-period loop
(src/main.rs:483-485). -/
structure Assignments where
  room : Option Room
  teacher : Option Teacher
  subject : Option Subject
deriving DecidableEq

/-- One iteration of the per-period assignment loop (src/main.rs:492-601):
read type tag, id, orgId and state, then dispatch; an unrecognized tag at
this level is a hard error. -/
def stepElem (cat : Catalog) (acc : Assignments) (element : Json) : Except String Assignments := do
  let tv ← okOr (element.get "type") "Element has no type!"
  let type_tag ← okOr tv.asU64 "Type of element is not of type 'u64'!"
  let iv ← okOr (element.get "id") "Element has no id!"
  let id ← okOr iv.asU64 "id of element is not of type 'u64'!"
  let ov ← okOr (element.get "orgId") "Element has no orgId!"
  let original_id ← okOr ov.asU64 "orgId of element is not of type 'u64'!"
  let state ← readState element
  if type_tag = 2 then do
    let t ← buildTeacher cat.teachers element id original_id state
    pure { acc with teacher := some t }
  else if type_tag = 3 then do
    let s ← buildSubject cat.subjects element id original_id state
    pure { acc with subject := some s }
  else if type_tag = 4 then do
    let r ← buildRoom cat.rooms element id original_id state
    pure { acc with room := some r }
  else Except.error "Unknown type!"

/-- The whole per-period assignment loop. -/
def stepElems (cat : Catalog) (acc : Assignments) (elements : List Json) : Except String Assignments :=
  elements.foldlM (stepElem cat) acc

/-- The teacher an assignment element yields, independent of the loop
accumulator: the id/orgId/state reads of `stepElem` followed by
`buildTeacher`. -/
def assignedTeacher (cat : Catalog) (element : Json) : Except String Teacher := do
  let iv ← okOr (element.get "id") "Element has no id!"
  let id ← okOr iv.asU64 "id of element is not of type 'u64'!"
  let ov ← okOr (element.get "orgId") "Element has no orgId!"
  let original_id ← okOr ov.asU64 "orgId of element is not of type 'u64'!"
  let state ← readState element
  buildTeacher cat.teachers element id original_id state

/-- Subject analogue of `assignedTeacher`. -/
def assignedSubject (cat : Catalog) (element : Json) : Except String Subject := do
  let iv ← okOr (element.get "id") "Element has no id!"
  let id ← okOr iv.asU64 "id of element is not of type 'u64'!"
  let ov ← okOr (element.get "orgId") "Element has no orgId!"
  let original_id ← okOr ov.asU64 "orgId of element is not of type 'u64'!"
  let state ← readState element
  buildSubject cat.subjects element id original_id state

/-- Room analogue of `assignedTeacher`. -/
def assignedRoom (cat : Catalog) (element : Json) : Except String Room := do
  let iv ← okOr (element.get "id") "Element has no id!"
  let id ← okOr iv.asU64 "id of element is not of type 'u64'!"
  let ov ← okOr (element.get "orgId") "Element has no orgId!"
  let original_id ← okOr ov.asU64 "orgId of element is not of type 'u64'!"
  let state ← readState element
  buildRoom cat.rooms element id original_id state

/-- A required string field of a period record. -/
def readStrField (j : Json) (k : String) : Except String String := do
  let v ← okOr (j.get k) ("field '" ++ k ++ "' missing on period")
  okOr v.asStr ("field '" ++ k ++ "' is not of type 'str'")

/-- One iteration of the period loop (src/main.rs:482-663): resolve the
period's assignment elements, then its `cellState`, text fields, date and
times, and build the `Period`. -/
def parsePeriod (cat : Catalog) (period : Json) : Except String Period := do
  let ev ← okOr (period.get "elements") "No elements specified for period!"
  let elements ← okOr ev.asArr "Elements of period are not an array!"
  let asgn ← stepElems cat ⟨none, none, none⟩ elements
  let sv ← okOr (period.get "cellState") "field 'state' missing on period"
  let s ← okOr sv.asStr "field 'state' is not of type 'str'"
  let period_state ← match s with
    | "CANCEL" => pure PeriodState.Cancel
    | "STANDARD" => pure PeriodState.Standard
    | "SUBSTITUTION" => pure PeriodState.Substitution
    | _ => Except.error "Unknown type of 'cellState'"
  let lesson_text ← readStrField period "lessonText"
  let text ← readStrField period "periodText"
  let info ← readStrField period "periodInfo"
  let substitution_text ← readStrField period "substText"
  let dv ← okOr (period.get "date") "field 'date' missing on period"
  let dn ← okOr dv.asU64 "field 'date' is not of type 'u64'"
  let date ← parseDateYYYYMMDD dn
  let stv ← okOr (period.get "startTime") "field 'startTime' missing on period"
  let start_time ← json_value_to_time stv
  let etv ← okOr (period.get "endTime") "field 'endTime' missing on period"
  let end_time ← json_value_to_time etv
  pure { lesson_text, text, info, substitution_text, date, start_time, end_time,
         state := period_state,
         teacher := asgn.teacher, subject := asgn.subject, room := asgn.room }

/-- `parse_timetable` (src/main.rs:421-666): navigate
`.data.result.data`, populate the catalog from `elements`, select the
requesting person's sub-array of `elementPeriods`, and build the period
list in source order. -/
def parse_timetable (timetable : Json) (person_id : Nat) : Except String (List Period) := do
  let d1 ← okOr (timetable.get "data") "'.data' field not present in timetable"
  let d2 ← okOr (d1.get "result") "'.data.result' field not present in timetable"
  let data ← okOr (d2.get "data") "'.data.result.data' field not present in timetable"
  let ev ← okOr (data.get "elements") "elements field not present in timetable"
  let elements ← okOr ev.asArr "elements field not of type 'array'"
  let cat ← catalogSteps ⟨[], [], []⟩ elements
  let pv ← okOr (data.get "elementPeriods") "data does not contain elementPeriods!"
  let pv2 ← okOr (pv.get (Nat.repr person_id)) "No timetable for logged in user found in data!"
  let periods ← okOr pv2.asArr "Periods are not an array!"
  periods.mapM (parsePeriod cat)

/-- The type tag of an element, when readable (`get("type").as_u64()`). -/
def jsonTag (e : Json) : Option Nat := (e.get "type").bind Json.asU64

/-- The current id of an element, when readable. -/
def jsonId (e : Json) : Option Nat := (e.get "id").bind Json.asU64

/-- The original id of an element, when readable. -/
def jsonOrgId (e : Json) : Option Nat := (e.get "orgId").bind Json.asU64

/-- An assignment element that processes successfully on its own (success
of `stepElem` does not depend on the accumulator). -/
def elementOk (cat : Catalog) (e : Json) : Bool :=
  (stepElem cat ⟨none, none, none⟩ e).isOk

/-! ## Concrete fixtures (payloads and the values extraction yields on them) -/

deriving instance DecidableEq for Except

/-- Catalog element: teacher `Alice`, id 1 (type tag 2). -/
def catTeacherElem : Json := .obj [("type", .num 2), ("id", .num 1), ("name", .str "Alice"),
  ("canViewTimetable", .bool true), ("externKey", .str "T1"), ("roomCapacity", .num 0)]

/-- Catalog element: teacher `Bob`, id 2 (type tag 2). -/
def catTeacherElemB : Json := .obj [("type", .num 2), ("id", .num 2), ("name", .str "Bob"),
  ("canViewTimetable", .bool true), ("externKey", .str "T2"), ("roomCapacity", .num 0)]

/-- Catalog element: subject `Mathematik`, id 10 (type tag 3). -/
def catSubjectElem : Json := .obj [("type", .num 3), ("id", .num 10), ("name", .str "M"),
  ("longName", .str "Mathematik"), ("displayname", .str "M"), ("alternatename", .str ""),
  ("backColor", .str "#fff"), ("canViewTimetable", .bool true), ("roomCapacity", .num 0)]

/-- Period assignment element: teacher, current id 1 equal to its original
id 1, state `SUBSTITUTED`. -/
def perTeacherElem : Json := .obj [("type", .num 2), ("id", .num 1), ("orgId", .num 1),
  ("state", .str "SUBSTITUTED"), ("missing", .bool false)]

/-- Period assignment element: teacher, current id 2, state `REGULAR`. -/
def perTeacherElemB : Json := .obj [("type", .num 2), ("id", .num 2), ("orgId", .num 2),
  ("state", .str "REGULAR"), ("missing", .bool false)]

/-- Period assignment element: subject, current id 10 equal to its
original id 10, state `REGULAR`. -/
def perSubjectElem : Json := .obj [("type", .num 3), ("id", .num 10), ("orgId", .num 10),
  ("state", .str "REGULAR"), ("missing", .bool false)]

/-- Period assignment element whose current id 42 resolves nowhere. -/
def perUnresolvedElem : Json := .obj [("type", .num 2), ("id", .num 42), ("orgId", .num 42),
  ("state", .str "REGULAR"), ("missing", .bool false)]

/-- Period assignment element whose original id 77 resolves nowhere (the
current id 1 does). -/
def perOrphanOrgElem : Json := .obj [("type", .num 2), ("id", .num 1), ("orgId", .num 77),
  ("state", .str "SUBSTITUTED"), ("missing", .bool false)]

/-- Catalog element with the unrecognized type tag 7. -/
def unknownTagCatElem : Json := .obj [("type", .num 7), ("id", .num 99), ("name", .str "?")]

/-- Period assignment element with the unrecognized type tag 7. -/
def unknownTagAsgElem : Json := .obj [("type", .num 7), ("id", .num 1), ("orgId", .num 1),
  ("state", .str "REGULAR"), ("missing", .bool false)]

/-- A full period record: the substituted teacher and the regular subject,
state `SUBSTITUTION`, on 2026-10-12 from 10:00 to 10:50. -/
def samplePeriodJson : Json := .obj [("elements", .arr [perTeacherElem, perSubjectElem]),
  ("cellState", .str "SUBSTITUTION"), ("lessonText", .str ""), ("periodText", .str ""),
  ("periodInfo", .str ""), ("substText", .str "Vertretung"),
  ("date", .num 20261012), ("startTime", .num 1000), ("endTime", .num 1050)]

/-- A full timetable payload for person 5. -/
def sampleTimetable : Json := .obj [("data", .obj [("result", .obj [("data", .obj [
  ("elements", .arr [catTeacherElem, catSubjectElem]),
  ("elementPeriods", .obj [("5", .arr [samplePeriodJson])])])])])]

/-- The catalog record for teacher `Alice`. -/
def sampleOT : OriginalTeacher := ⟨1, "Alice", true, "T1", 0⟩

/-- The catalog record for teacher `Bob`. -/
def sampleOTB : OriginalTeacher := ⟨2, "Bob", true, "T2", 0⟩

/-- The catalog record for subject `Mathematik`. -/
def sampleOS : OriginalSubject := ⟨10, "M", "Mathematik", "M", "", "#fff", true, 0, none⟩

/-- A catalog holding both teachers and the subject. -/
def sampleCatalog : Catalog := ⟨[], [(1, sampleOT), (2, sampleOTB)], [(10, sampleOS)]⟩

/-- The teacher assignment extraction builds from `perTeacherElem`: equal
current/original ids, yet the original snapshot is present. -/
def sampleTeacher : Teacher :=
  { id := 1, original_teacher_id := 1, original_teacher := some sampleOT,
    missing := false, state := ElementState.Substituted, name := "Alice",
    can_view_timetable := true, ext_key := "T1", room_capacity := 0 }

/-- The subject assignment extraction builds from `perSubjectElem`. -/
def sampleSubject : Subject :=
  { id := 10, original_subject_id := 10, original_subject := some sampleOS,
    missing := false, state := ElementState.Regular, name := "M",
    long_name := "Mathematik", display_name := "M", alternate_name := "",
    back_color := "#fff", can_view_timetable := true, room_capacity := 0,
    fore_color := none }

/-- The period extraction builds from `samplePeriodJson`. -/
def samplePeriod : Period :=
  { lesson_text := "", text := "", info := "", substitution_text := "Vertretung",
    date := ⟨2026, 10, 12⟩, start_time := ⟨10, 0, 0⟩, end_time := ⟨10, 50, 0⟩,
    state := PeriodState.Substitution,
    teacher := some sampleTeacher, subject := some sampleSubject, room := none }

/-- The original teacher of the spec's substitution scenario. -/
def muellerOT : OriginalTeacher := ⟨3, "Müller", true, "MU", 0⟩

/-- The substituting teacher of the spec's substitution scenario. -/
def schmidtTeacher : Teacher :=
  { id := 4, original_teacher_id := 3, original_teacher := some muellerOT,
    missing := false, state := ElementState.Substituted, name := "Schmidt",
    can_view_timetable := true, ext_key := "SC", room_capacity := 0 }

/-- The subject of the spec's substitution scenario. -/
def physikSubject : Subject :=
  { id := 11, original_subject_id := 11, original_subject := none,
    missing := false, state := ElementState.Regular, name := "Ph",
    long_name := "Physik", display_name := "Ph", alternate_name := "",
    back_color := "#fff", can_view_timetable := true, room_capacity := 0,
    fore_color := none }

/-- The spec's teacher-substitution scenario period: `SUBSTITUTION`,
Physik, 10:00-10:50, note `Vertretung`, no room assignment. -/
def scenarioPeriod : Period :=
  { lesson_text := "", text := "", info := "", substitution_text := "Vertretung",
    date := ⟨2026, 10, 12⟩, start_time := ⟨10, 0, 0⟩, end_time := ⟨10, 50, 0⟩,
    state := PeriodState.Substitution,
    teacher := some schmidtTeacher, subject := some physikSubject, room := none }

/-- The spec's cancellation scenario period: `CANCEL`, Mathematik,
08:00-08:50. -/
def cancelPeriod : Period :=
  { lesson_text := "", text := "", info := "", substitution_text := "",
    date := ⟨2026, 10, 12⟩, start_time := ⟨8, 0, 0⟩, end_time := ⟨8, 50, 0⟩,
    state := PeriodState.Cancel,
    teacher := none, subject := some sampleSubject, room := none }

/-- A period with no subject assignment but every other deviation signal
set. -/
def noSubjectPeriod : Period :=
  { lesson_text := "Ausfall", text := "t", info := "i", substitution_text := "Vertretung",
    date := ⟨2026, 10, 12⟩, start_time := ⟨8, 0, 0⟩, end_time := ⟨8, 50, 0⟩,
    state := PeriodState.Substitution,
    teacher := some sampleTeacher, subject := none, room := none }

/-- The update an assignment element makes to the three assignment slots,
with the accumulator abstracted away: `stepElem cat acc e` equals
`(elemUpdate cat e).map (fun f => f acc)` (proved below), which makes the
accumulator-independence of element processing explicit. -/
def elemUpdate (cat : Catalog) (e : Json) : Except String (Assignments → Assignments) := do
  let tv ← okOr (e.get "type") "Element has no type!"
  let type_tag ← okOr tv.asU64 "Type of element is not of type 'u64'!"
  if type_tag = 2 then (assignedTeacher cat e).map (fun t acc => { acc with teacher := some t })
  else if type_tag = 3 then (assignedSubject cat e).map (fun s acc => { acc with subject := some s })
  else if type_tag = 4 then (assignedRoom cat e).map (fun r acc => { acc with room := some r })
  else do
    let iv ← okOr (e.get "id") "Element has no id!"
    let _ ← okOr iv.asU64 "id of element is not of type 'u64'!"
    let ov ← okOr (e.get "orgId") "Element has no orgId!"
    let _ ← okOr ov.asU64 "orgId of element is not of type 'u64'!"
    let _ ← readState e
    Except.error "Unknown type!"

/-- A room assignment whose state is `Regular`. -/
def sampleORm : OriginalRoom := ⟨20, "R1", "Raum 1", "R1", "", true, 30⟩

/-- A room assignment in `Regular` state with a present snapshot. -/
def regRoom : Room :=
  { id := 20, original_room_id := 20, original_room := some sampleORm,
    missing := false, state := ElementState.Regular, name := "R1",
    long_name := "Raum 1", displayname := "R1", alternatename := "",
    can_view_timetable := true, room_capacity := 30 }

/-- A teacher assignment in `Regular` state with a present snapshot. -/
def regTeacher : Teacher :=
  { id := 1, original_teacher_id := 1, original_teacher := some sampleOT,
    missing := false, state := ElementState.Regular, name := "Alice",
    can_view_timetable := true, ext_key := "T1", room_capacity := 0 }

/-- The teacher built from `perTeacherElemB` against `sampleCatalog`. -/
def bobTeacher : Teacher :=
  { id := 2, original_teacher_id := 2, original_teacher := some sampleOTB,
    missing := false, state := ElementState.Regular, name := "Bob",
    can_view_timetable := true, ext_key := "T2", room_capacity := 0 }

/-- The teacher built from `perOrphanOrgElem` against `sampleCatalog`: its
original id 77 resolves nowhere, so the snapshot is `none`. -/
def orphanTeacher : Teacher :=
  { id := 1, original_teacher_id := 77, original_teacher := none,
    missing := false, state := ElementState.Substituted, name := "Alice",
    can_view_timetable := true, ext_key := "T1", room_capacity := 0 }

/-- A period record whose teacher element's current id 42 resolves
nowhere in the catalog. -/
def badPeriodJson : Json := .obj [("elements", .arr [perUnresolvedElem, perSubjectElem]),
  ("cellState", .str "SUBSTITUTION"), ("lessonText", .str ""), ("periodText", .str ""),
  ("periodInfo", .str ""), ("substText", .str ""),
  ("date", .num 20261012), ("startTime", .num 1000), ("endTime", .num 1050)]

/-- A full timetable payload whose only period contains the unresolvable
teacher reference. -/
def badTimetable : Json := .obj [("data", .obj [("result", .obj [("data", .obj [
  ("elements", .arr [catTeacherElem, catSubjectElem]),
  ("elementPeriods", .obj [("5", .arr [badPeriodJson])])])])])]

/-- The catalog `parse_timetable` builds from `sampleTimetable`'s (and
`badTimetable`'s) element list. -/
def parsedCatalog : Catalog := ⟨[], [(1, sampleOT)], [(10, sampleOS)]⟩

/-! ## Except-monad computation lemmas -/

theorem okOr_some (a : α) (msg : String) : okOr (some a) msg = Except.ok a := rfl

theorem okOr_none (msg : String) : okOr (none : Option α) msg = Except.error msg := rfl

theorem except_ok_bind (a : α) (f : α → Except ε β) : (Except.ok a >>= f) = f a := rfl

theorem except_error_bind (msg : ε) (f : α → Except ε β) :
    ((Except.error msg : Except ε α) >>= f) = Except.error msg := rfl

theorem except_map_ok (a : α) (f : α → β) :
    (Except.ok a : Except ε α).map f = Except.ok (f a) := rfl

theorem except_map_error (msg : ε) (f : α → β) :
    (Except.error msg : Except ε α).map f = Except.error msg := rfl

theorem except_map_bind (x : Except ε α) (g : α → Except ε β) (f : β → γ) :
    (x >>= g).map f = x >>= fun a => (g a).map f := by cases x <;> rfl

theorem except_bind_congr (x : Except ε α) {f g : α → Except ε β}
    (h : ∀ a, f a = g a) : (x >>= f) = (x >>= g) := by
  cases x with
  | error e => rfl
  | ok a => exact h a

theorem except_map_map (x : Except ε α) (f : α → β) (g : β → γ) :
    (x.map f).map g = x.map (fun a => g (f a)) := by cases x <;> rfl

theorem except_isOk_map (x : Except ε α) (f : α → β) : (x.map f).isOk = x.isOk := by
  cases x <;> rfl

theorem except_isOk_true_iff (x : Except ε α) : x.isOk = true ↔ ∃ a, x = .ok a := by
  cases x <;> simp [Except.isOk, Except.toBool]

theorem except_bind_error_isOk {x : Except ε α} {f : α → Except ε β}
    (hf : ∀ a, (f a).isOk = false) : (x >>= f).isOk = false := by
  cases x with
  | error e => rfl
  | ok a => rw [except_ok_bind]; exact hf a

theorem stepElem_eq_update (cat : Catalog) (acc : Assignments) (e : Json) :
    stepElem cat acc e = (elemUpdate cat e).map (fun f => f acc) := by
  unfold stepElem elemUpdate
  rw [except_map_bind]
  apply except_bind_congr; intro tv
  rw [except_map_bind]
  apply except_bind_congr; intro tag
  by_cases h2 : tag = 2
  · simp only [if_pos h2]
    unfold assignedTeacher
    rw [except_map_map]
    rw [except_map_bind]; apply except_bind_congr; intro iv
    rw [except_map_bind]; apply except_bind_congr; intro id
    rw [except_map_bind]; apply except_bind_congr; intro ov
    rw [except_map_bind]; apply except_bind_congr; intro oid
    rw [except_map_bind]; apply except_bind_congr; intro st
    cases hb : buildTeacher cat.teachers e id oid st <;> rfl
  · by_cases h3 : tag = 3
    · simp only [if_neg h2, if_pos h3]
      unfold assignedSubject
      rw [except_map_map]
      rw [except_map_bind]; apply except_bind_congr; intro iv
      rw [except_map_bind]; apply except_bind_congr; intro id
      rw [except_map_bind]; apply except_bind_congr; intro ov
      rw [except_map_bind]; apply except_bind_congr; intro oid
      rw [except_map_bind]; apply except_bind_congr; intro st
      cases hb : buildSubject cat.subjects e id oid st <;> rfl
    · by_cases h4 : tag = 4
      · simp only [if_neg h2, if_neg h3, if_pos h4]
        unfold assignedRoom
        rw [except_map_map]
        rw [except_map_bind]; apply except_bind_congr; intro iv
        rw [except_map_bind]; apply except_bind_congr; intro id
        rw [except_map_bind]; apply except_bind_congr; intro ov
        rw [except_map_bind]; apply except_bind_congr; intro oid
        rw [except_map_bind]; apply except_bind_congr; intro st
        cases hb : buildRoom cat.rooms e id oid st <;> rfl
      · simp only [if_neg h2, if_neg h3, if_neg h4]
        rw [except_map_bind]; apply except_bind_congr; intro iv
        rw [except_map_bind]; apply except_bind_congr; intro id
        rw [except_map_bind]; apply except_bind_congr; intro ov
        rw [except_map_bind]; apply except_bind_congr; intro oid
        rw [except_map_bind]; apply except_bind_congr; intro st
        rfl

theorem elemUpdate_tag2 (cat : Catalog) (e : Json) (h : jsonTag e = some 2) :
    elemUpdate cat e =
      (assignedTeacher cat e).map (fun t acc => { acc with teacher := some t }) := by
  unfold jsonTag at h
  obtain ⟨tv, htv, htu⟩ := Option.bind_eq_some.mp h
  unfold elemUpdate
  rw [htv, okOr_some, except_ok_bind, htu, okOr_some, except_ok_bind,
    if_pos (rfl : (2 : Nat) = 2)]

theorem elemUpdate_tag3 (cat : Catalog) (e : Json) (h : jsonTag e = some 3) :
    elemUpdate cat e =
      (assignedSubject cat e).map (fun s acc => { acc with subject := some s }) := by
  unfold jsonTag at h
  obtain ⟨tv, htv, htu⟩ := Option.bind_eq_some.mp h
  unfold elemUpdate
  rw [htv, okOr_some, except_ok_bind, htu, okOr_some, except_ok_bind,
    if_neg (by decide : ¬ (3 : Nat) = 2), if_pos (rfl : (3 : Nat) = 3)]

theorem elemUpdate_tag4 (cat : Catalog) (e : Json) (h : jsonTag e = some 4) :
    elemUpdate cat e =
      (assignedRoom cat e).map (fun r acc => { acc with room := some r }) := by
  unfold jsonTag at h
  obtain ⟨tv, htv, htu⟩ := Option.bind_eq_some.mp h
  unfold elemUpdate
  rw [htv, okOr_some, except_ok_bind, htu, okOr_some, except_ok_bind,
    if_neg (by decide : ¬ (4 : Nat) = 2), if_neg (by decide : ¬ (4 : Nat) = 3),
    if_pos (rfl : (4 : Nat) = 4)]

theorem elemUpdate_tagOther (cat : Catalog) (e : Json) (n : Nat) (h : jsonTag e = some n)
    (h2 : n ≠ 2) (h3 : n ≠ 3) (h4 : n ≠ 4) : (elemUpdate cat e).isOk = false := by
  unfold jsonTag at h
  obtain ⟨tv, htv, htu⟩ := Option.bind_eq_some.mp h
  unfold elemUpdate
  rw [htv, okOr_some, except_ok_bind, htu, okOr_some, except_ok_bind,
    if_neg h2, if_neg h3, if_neg h4]
  apply except_bind_error_isOk; intro iv
  apply except_bind_error_isOk; intro i
  apply except_bind_error_isOk; intro ov
  apply except_bind_error_isOk; intro o
  apply except_bind_error_isOk; intro st
  rfl

theorem stepElem_tag2 (cat : Catalog) (acc : Assignments) (e : Json) (h : jsonTag e = some 2) :
    stepElem cat acc e = (assignedTeacher cat e).map (fun t => { acc with teacher := some t }) := by
  rw [stepElem_eq_update, elemUpdate_tag2 cat e h, except_map_map]

theorem stepElem_tag3 (cat : Catalog) (acc : Assignments) (e : Json) (h : jsonTag e = some 3) :
    stepElem cat acc e = (assignedSubject cat e).map (fun s => { acc with subject := some s }) := by
  rw [stepElem_eq_update, elemUpdate_tag3 cat e h, except_map_map]

theorem stepElem_tag4 (cat : Catalog) (acc : Assignments) (e : Json) (h : jsonTag e = some 4) :
    stepElem cat acc e = (assignedRoom cat e).map (fun r => { acc with room := some r }) := by
  rw [stepElem_eq_update, elemUpdate_tag4 cat e h, except_map_map]

theorem stepElem_isOk_eq (cat : Catalog) (acc : Assignments) (e : Json) :
    (stepElem cat acc e).isOk = elementOk cat e := by
  unfold elementOk
  rw [stepElem_eq_update, stepElem_eq_update, except_isOk_map, except_isOk_map]

theorem elemUpdate_ok_teacher (cat : Catalog) (e : Json) (f : Assignments → Assignments)
    (hf : elemUpdate cat e = .ok f) (h2 : jsonTag e ≠ some 2) (acc : Assignments) :
    (f acc).teacher = acc.teacher := by
  unfold elemUpdate at hf
  cases htv : e.get "type" with
  | none => rw [htv, okOr_none, except_error_bind] at hf; exact Except.noConfusion hf
  | some tv =>
    rw [htv, okOr_some, except_ok_bind] at hf
    cases htu : tv.asU64 with
    | none => rw [htu, okOr_none, except_error_bind] at hf; exact Except.noConfusion hf
    | some n =>
      rw [htu, okOr_some, except_ok_bind] at hf
      have hjt : jsonTag e = some n := by
        unfold jsonTag; rw [htv, Option.some_bind, htu]
      have hn2 : n ≠ 2 := fun hh => h2 (hh ▸ hjt)
      rw [if_neg hn2] at hf
      by_cases hn3 : n = 3
      · rw [if_pos hn3] at hf
        cases hs : assignedSubject cat e with
        | error m => rw [hs, except_map_error] at hf; exact Except.noConfusion hf
        | ok s =>
          rw [hs, except_map_ok] at hf
          injection hf with hf'
          rw [← hf']
      · rw [if_neg hn3] at hf
        by_cases hn4 : n = 4
        · rw [if_pos hn4] at hf
          cases hr : assignedRoom cat e with
          | error m => rw [hr, except_map_error] at hf; exact Except.noConfusion hf
          | ok r =>
            rw [hr, except_map_ok] at hf
            injection hf with hf'
            rw [← hf']
        · rw [if_neg hn4] at hf
          exfalso
          have hchain : ((do
              let iv ← okOr (e.get "id") "Element has no id!"
              let _ ← okOr iv.asU64 "id of element is not of type 'u64'!"
              let ov ← okOr (e.get "orgId") "Element has no orgId!"
              let _ ← okOr ov.asU64 "orgId of element is not of type 'u64'!"
              let _ ← readState e
              (Except.error "Unknown type!" : Except String (Assignments → Assignments))) :
                Except String (Assignments → Assignments)).isOk = false := by
            apply except_bind_error_isOk; intro iv
            apply except_bind_error_isOk; intro i
            apply except_bind_error_isOk; intro ov
            apply except_bind_error_isOk; intro o
            apply except_bind_error_isOk; intro st
            rfl
          rw [hf] at hchain
          exact Bool.noConfusion hchain

theorem elemUpdate_ok_subject (cat : Catalog) (e : Json) (f : Assignments → Assignments)
    (hf : elemUpdate cat e = .ok f) (h3 : jsonTag e ≠ some 3) (acc : Assignments) :
    (f acc).subject = acc.subject := by
  unfold elemUpdate at hf
  cases htv : e.get "type" with
  | none => rw [htv, okOr_none, except_error_bind] at hf; exact Except.noConfusion hf
  | some tv =>
    rw [htv, okOr_some, except_ok_bind] at hf
    cases htu : tv.asU64 with
    | none => rw [htu, okOr_none, except_error_bind] at hf; exact Except.noConfusion hf
    | some n =>
      rw [htu, okOr_some, except_ok_bind] at hf
      have hjt : jsonTag e = some n := by
        unfold jsonTag; rw [htv, Option.some_bind, htu]
      have hn3 : n ≠ 3 := fun hh => h3 (hh ▸ hjt)
      rw [if_neg hn3] at hf
      by_cases hn2 : n = 2
      · rw [if_pos hn2] at hf
        cases ht : assignedTeacher cat e with
        | error m => rw [ht, except_map_error] at hf; exact Except.noConfusion hf
        | ok t =>
          rw [ht, except_map_ok] at hf
          injection hf with hf'
          rw [← hf']
      · rw [if_neg hn2] at hf
        by_cases hn4 : n = 4
        · rw [if_pos hn4] at hf
          cases hr : assignedRoom cat e with
          | error m => rw [hr, except_map_error] at hf; exact Except.noConfusion hf
          | ok r =>
            rw [hr, except_map_ok] at hf
            injection hf with hf'
            rw [← hf']
        · rw [if_neg hn4] at hf
          exfalso
          have hchain : ((do
              let iv ← okOr (e.get "id") "Element has no id!"
              let _ ← okOr iv.asU64 "id of element is not of type 'u64'!"
              let ov ← okOr (e.get "orgId") "Element has no orgId!"
              let _ ← okOr ov.asU64 "orgId of element is not of type 'u64'!"
              let _ ← readState e
              (Except.error "Unknown type!" : Except String (Assignments → Assignments))) :
                Except String (Assignments → Assignments)).isOk = false := by
            apply except_bind_error_isOk; intro iv
            apply except_bind_error_isOk; intro i
            apply except_bind_error_isOk; intro ov
            apply except_bind_error_isOk; intro o
            apply except_bind_error_isOk; intro st
            rfl
          rw [hf] at hchain
          exact Bool.noConfusion hchain

theorem elemUpdate_ok_room (cat : Catalog) (e : Json) (f : Assignments → Assignments)
    (hf : elemUpdate cat e = .ok f) (h4 : jsonTag e ≠ some 4) (acc : Assignments) :
    (f acc).room = acc.room := by
  unfold elemUpdate at hf
  cases htv : e.get "type" with
  | none => rw [htv, okOr_none, except_error_bind] at hf; exact Except.noConfusion hf
  | some tv =>
    rw [htv, okOr_some, except_ok_bind] at hf
    cases htu : tv.asU64 with
    | none => rw [htu, okOr_none, except_error_bind] at hf; exact Except.noConfusion hf
    | some n =>
      rw [htu, okOr_some, except_ok_bind] at hf
      have hjt : jsonTag e = some n := by
        unfold jsonTag; rw [htv, Option.some_bind, htu]
      have hn4 : n ≠ 4 := fun hh => h4 (hh ▸ hjt)
      by_cases hn2 : n = 2
      · rw [if_pos hn2] at hf
        cases ht : assignedTeacher cat e with
        | error m => rw [ht, except_map_error] at hf; exact Except.noConfusion hf
        | ok t =>
          rw [ht, except_map_ok] at hf
          injection hf with hf'
          rw [← hf']
      · rw [if_neg hn2] at hf
        by_cases hn3 : n = 3
        · rw [if_pos hn3] at hf
          cases hs : assignedSubject cat e with
          | error m => rw [hs, except_map_error] at hf; exact Except.noConfusion hf
          | ok s =>
            rw [hs, except_map_ok] at hf
            injection hf with hf'
            rw [← hf']
        · rw [if_neg hn3, if_neg hn4] at hf
          exfalso
          have hchain : ((do
              let iv ← okOr (e.get "id") "Element has no id!"
              let _ ← okOr iv.asU64 "id of element is not of type 'u64'!"
              let ov ← okOr (e.get "orgId") "Element has no orgId!"
              let _ ← okOr ov.asU64 "orgId of element is not of type 'u64'!"
              let _ ← readState e
              (Except.error "Unknown type!" : Except String (Assignments → Assignments))) :
                Except String (Assignments → Assignments)).isOk = false := by
            apply except_bind_error_isOk; intro iv
            apply except_bind_error_isOk; intro i
            apply except_bind_error_isOk; intro ov
            apply except_bind_error_isOk; intro o
            apply except_bind_error_isOk; intro st
            rfl
          rw [hf] at hchain
          exact Bool.noConfusion hchain

theorem stepElems_nil (cat : Catalog) (acc : Assignments) :
    stepElems cat acc [] = .ok acc := rfl

theorem stepElems_cons (cat : Catalog) (acc : Assignments) (e : Json) (es : List Json) :
    stepElems cat acc (e :: es) = stepElem cat acc e >>= fun a => stepElems cat a es := by
  simp [stepElems, List.foldlM_cons]

theorem stepElems_append (cat : Catalog) (acc : Assignments) (l₁ l₂ : List Json) :
    stepElems cat acc (l₁ ++ l₂) = stepElems cat acc l₁ >>= fun a => stepElems cat a l₂ := by
  simp [stepElems, List.foldlM_append]

theorem stepElems_isOk_of_all (cat : Catalog) (es : List Json) :
    ∀ acc : Assignments, (∀ e ∈ es, elementOk cat e = true) →
    (stepElems cat acc es).isOk = true := by
  induction es with
  | nil => intro acc _; rfl
  | cons e es ih =>
    intro acc h
    rw [stepElems_cons]
    have he : (stepElem cat acc e).isOk = true := by
      rw [stepElem_isOk_eq]; exact h e (List.mem_cons_self e es)
    obtain ⟨a, ha⟩ := (except_isOk_true_iff _).mp he
    rw [ha, except_ok_bind]
    exact ih a (fun x hx => h x (List.mem_cons_of_mem _ hx))

theorem stepElems_isOk_false_of_mem (cat : Catalog) (es : List Json) :
    ∀ (acc : Assignments) (e : Json), e ∈ es → elementOk cat e = false →
    (stepElems cat acc es).isOk = false := by
  induction es with
  | nil => intro acc e he _; exact absurd he (List.not_mem_nil e)
  | cons x es ih =>
    intro acc e he hbad
    rw [stepElems_cons]
    rcases List.mem_cons.mp he with rfl | hmem
    · cases hx : stepElem cat acc e with
      | error m => rw [except_error_bind]; rfl
      | ok a =>
        exfalso
        have h1 := stepElem_isOk_eq cat acc e
        rw [hx, hbad] at h1
        exact Bool.noConfusion h1
    · cases hx : stepElem cat acc x with
      | error m => rw [except_error_bind]; rfl
      | ok a => rw [except_ok_bind]; exact ih a e hmem hbad

theorem stepElems_teacher_preserved (cat : Catalog) (es : List Json) :
    ∀ acc acc' : Assignments, stepElems cat acc es = .ok acc' →
    (∀ e ∈ es, jsonTag e ≠ some 2) → acc'.teacher = acc.teacher := by
  induction es with
  | nil =>
    intro acc acc' h _
    injection h with h'
    rw [← h']
  | cons e es ih =>
    intro acc acc' h hno
    rw [stepElems_cons] at h
    cases hx : stepElem cat acc e with
    | error m => rw [hx, except_error_bind] at h; exact Except.noConfusion h
    | ok a =>
      rw [hx, except_ok_bind] at h
      have h1 : a.teacher = acc.teacher := by
        rw [stepElem_eq_update] at hx
        cases hu : elemUpdate cat e with
        | error m => rw [hu, except_map_error] at hx; exact Except.noConfusion hx
        | ok f =>
          rw [hu, except_map_ok] at hx
          injection hx with hf
          rw [← hf]
          exact elemUpdate_ok_teacher cat e f hu (hno e (List.mem_cons_self e es)) acc
      exact (ih a acc' h (fun x hx' => hno x (List.mem_cons_of_mem _ hx'))).trans h1

theorem stepElems_subject_preserved (cat : Catalog) (es : List Json) :
    ∀ acc acc' : Assignments, stepElems cat acc es = .ok acc' →
    (∀ e ∈ es, jsonTag e ≠ some 3) → acc'.subject = acc.subject := by
  induction es with
  | nil =>
    intro acc acc' h _
    injection h with h'
    rw [← h']
  | cons e es ih =>
    intro acc acc' h hno
    rw [stepElems_cons] at h
    cases hx : stepElem cat acc e with
    | error m => rw [hx, except_error_bind] at h; exact Except.noConfusion h
    | ok a =>
      rw [hx, except_ok_bind] at h
      have h1 : a.subject = acc.subject := by
        rw [stepElem_eq_update] at hx
        cases hu : elemUpdate cat e with
        | error m => rw [hu, except_map_error] at hx; exact Except.noConfusion hx
        | ok f =>
          rw [hu, except_map_ok] at hx
          injection hx with hf
          rw [← hf]
          exact elemUpdate_ok_subject cat e f hu (hno e (List.mem_cons_self e es)) acc
      exact (ih a acc' h (fun x hx' => hno x (List.mem_cons_of_mem _ hx'))).trans h1

theorem stepElems_room_preserved (cat : Catalog) (es : List Json) :
    ∀ acc acc' : Assignments, stepElems cat acc es = .ok acc' →
    (∀ e ∈ es, jsonTag e ≠ some 4) → acc'.room = acc.room := by
  induction es with
  | nil =>
    intro acc acc' h _
    injection h with h'
    rw [← h']
  | cons e es ih =>
    intro acc acc' h hno
    rw [stepElems_cons] at h
    cases hx : stepElem cat acc e with
    | error m => rw [hx, except_error_bind] at h; exact Except.noConfusion h
    | ok a =>
      rw [hx, except_ok_bind] at h
      have h1 : a.room = acc.room := by
        rw [stepElem_eq_update] at hx
        cases hu : elemUpdate cat e with
        | error m => rw [hu, except_map_error] at hx; exact Except.noConfusion hx
        | ok f =>
          rw [hu, except_map_ok] at hx
          injection hx with hf
          rw [← hf]
          exact elemUpdate_ok_room cat e f hu (hno e (List.mem_cons_self e es)) acc
      exact (ih a acc' h (fun x hx' => hno x (List.mem_cons_of_mem _ hx'))).trans h1

theorem assignedTeacher_eq (cat : Catalog) (e : Json) (i o : Nat) (st : ElementState)
    (mi : Bool) (info : OriginalTeacher)
    (hi : jsonId e = some i) (ho : jsonOrgId e = some o) (hst : readState e = .ok st)
    (hmi : readMissing e = .ok mi) (hinfo : hmGet cat.teachers i = some info) :
    assignedTeacher cat e = .ok
      { id := i, original_teacher_id := o,
        original_teacher := hmGet cat.teachers o,
        missing := mi, state := st, name := info.name,
        can_view_timetable := info.can_view_timetable,
        ext_key := info.ext_key, room_capacity := info.room_capacity } := by
  unfold jsonId at hi
  unfold jsonOrgId at ho
  obtain ⟨iv, hiv, hivu⟩ := Option.bind_eq_some.mp hi
  obtain ⟨ov, hov, hovu⟩ := Option.bind_eq_some.mp ho
  unfold assignedTeacher buildTeacher
  rw [hiv, okOr_some, except_ok_bind, hivu, okOr_some, except_ok_bind,
    hov, okOr_some, except_ok_bind, hovu, okOr_some, except_ok_bind,
    hst, except_ok_bind, hinfo, okOr_some, except_ok_bind, hmi, except_ok_bind]
  rfl

theorem assignedTeacher_error_of_unresolved (cat : Catalog) (e : Json) (i : Nat)
    (hi : jsonId e = some i) (hmiss : hmGet cat.teachers i = none) :
    (assignedTeacher cat e).isOk = false := by
  unfold jsonId at hi
  obtain ⟨iv, hiv, hivu⟩ := Option.bind_eq_some.mp hi
  unfold assignedTeacher
  rw [hiv, okOr_some, except_ok_bind, hivu, okOr_some, except_ok_bind]
  apply except_bind_error_isOk; intro ov
  apply except_bind_error_isOk; intro o
  apply except_bind_error_isOk; intro st
  unfold buildTeacher
  rw [hmiss, okOr_none, except_error_bind]
  rfl

theorem assignedSubject_eq (cat : Catalog) (e : Json) (i o : Nat) (st : ElementState)
    (mi : Bool) (info : OriginalSubject) (bc : String) (fc : Option String)
    (hi : jsonId e = some i) (ho : jsonOrgId e = some o) (hst : readState e = .ok st)
    (hmi : readMissing e = .ok mi) (hinfo : hmGet cat.subjects i = some info)
    (hbc : subjBackColor info e = .ok bc) (hfc : subjForeColor e = .ok fc) :
    assignedSubject cat e = .ok
      { id := i, original_subject_id := o,
        original_subject := hmGet cat.subjects o,
        missing := mi, state := st, name := info.name,
        long_name := info.long_name, display_name := info.display_name,
        alternate_name := info.alternate_name, back_color := bc,
        can_view_timetable := info.can_view_timetable,
        room_capacity := info.room_capacity, fore_color := fc } := by
  unfold jsonId at hi
  unfold jsonOrgId at ho
  obtain ⟨iv, hiv, hivu⟩ := Option.bind_eq_some.mp hi
  obtain ⟨ov, hov, hovu⟩ := Option.bind_eq_some.mp ho
  unfold assignedSubject buildSubject
  rw [hiv, okOr_some, except_ok_bind, hivu, okOr_some, except_ok_bind,
    hov, okOr_some, except_ok_bind, hovu, okOr_some, except_ok_bind,
    hst, except_ok_bind, hinfo, okOr_some, except_ok_bind, hmi, except_ok_bind,
    hbc, except_ok_bind, hfc, except_ok_bind]
  rfl

theorem assignedSubject_error_of_unresolved (cat : Catalog) (e : Json) (i : Nat)
    (hi : jsonId e = some i) (hmiss : hmGet cat.subjects i = none) :
    (assignedSubject cat e).isOk = false := by
  unfold jsonId at hi
  obtain ⟨iv, hiv, hivu⟩ := Option.bind_eq_some.mp hi
  unfold assignedSubject
  rw [hiv, okOr_some, except_ok_bind, hivu, okOr_some, except_ok_bind]
  apply except_bind_error_isOk; intro ov
  apply except_bind_error_isOk; intro o
  apply except_bind_error_isOk; intro st
  unfold buildSubject
  rw [hmiss, okOr_none, except_error_bind]
  rfl

theorem assignedRoom_eq (cat : Catalog) (e : Json) (i o : Nat) (st : ElementState)
    (mi : Bool) (info : OriginalRoom)
    (hi : jsonId e = some i) (ho : jsonOrgId e = some o) (hst : readState e = .ok st)
    (hmi : readMissing e = .ok mi) (hinfo : hmGet cat.rooms i = some info) :
    assignedRoom cat e = .ok
      { id := i, original_room_id := o,
        original_room := hmGet cat.rooms o,
        missing := mi, state := st, name := info.name,
        long_name := info.long_name, displayname := info.displayname,
        alternatename := info.alternatename,
        can_view_timetable := info.can_view_timetable,
        room_capacity := info.room_capacity } := by
  unfold jsonId at hi
  unfold jsonOrgId at ho
  obtain ⟨iv, hiv, hivu⟩ := Option.bind_eq_some.mp hi
  obtain ⟨ov, hov, hovu⟩ := Option.bind_eq_some.mp ho
  unfold assignedRoom buildRoom
  rw [hiv, okOr_some, except_ok_bind, hivu, okOr_some, except_ok_bind,
    hov, okOr_some, except_ok_bind, hovu, okOr_some, except_ok_bind,
    hst, except_ok_bind, hinfo, okOr_some, except_ok_bind, hmi, except_ok_bind]
  rfl

theorem assignedRoom_error_of_unresolved (cat : Catalog) (e : Json) (i : Nat)
    (hi : jsonId e = some i) (hmiss : hmGet cat.rooms i = none) :
    (assignedRoom cat e).isOk = false := by
  unfold jsonId at hi
  obtain ⟨iv, hiv, hivu⟩ := Option.bind_eq_some.mp hi
  unfold assignedRoom
  rw [hiv, okOr_some, except_ok_bind, hivu, okOr_some, except_ok_bind]
  apply except_bind_error_isOk; intro ov
  apply except_bind_error_isOk; intro o
  apply except_bind_error_isOk; intro st
  unfold buildRoom
  rw [hmiss, okOr_none, except_error_bind]
  rfl

theorem assignedTeacher_inv (cat : Catalog) (e : Json) (t : Teacher)
    (h : assignedTeacher cat e = .ok t) :
    t.original_teacher = hmGet cat.teachers t.original_teacher_id
    ∧ ∃ info, hmGet cat.teachers t.id = some info := by
  unfold assignedTeacher at h
  cases hiv : e.get "id" with
  | none => rw [hiv, okOr_none, except_error_bind] at h; exact Except.noConfusion h
  | some iv =>
  rw [hiv, okOr_some, except_ok_bind] at h
  cases hivu : iv.asU64 with
  | none => rw [hivu, okOr_none, except_error_bind] at h; exact Except.noConfusion h
  | some i =>
  rw [hivu, okOr_some, except_ok_bind] at h
  cases hov : e.get "orgId" with
  | none => rw [hov, okOr_none, except_error_bind] at h; exact Except.noConfusion h
  | some ov =>
  rw [hov, okOr_some, except_ok_bind] at h
  cases hovu : ov.asU64 with
  | none => rw [hovu, okOr_none, except_error_bind] at h; exact Except.noConfusion h
  | some o =>
  rw [hovu, okOr_some, except_ok_bind] at h
  cases hst : readState e with
  | error m => rw [hst, except_error_bind] at h; exact Except.noConfusion h
  | ok st =>
  rw [hst, except_ok_bind] at h
  unfold buildTeacher at h
  cases hinfo : hmGet cat.teachers i with
  | none => rw [hinfo, okOr_none, except_error_bind] at h; exact Except.noConfusion h
  | some info =>
  rw [hinfo, okOr_some, except_ok_bind] at h
  cases hmi : readMissing e with
  | error m => rw [hmi, except_error_bind] at h; exact Except.noConfusion h
  | ok mi =>
  rw [hmi, except_ok_bind] at h
  injection h with h'
  subst h'
  exact ⟨rfl, info, hinfo⟩

theorem assignedSubject_inv (cat : Catalog) (e : Json) (s : Subject)
    (h : assignedSubject cat e = .ok s) :
    s.original_subject = hmGet cat.subjects s.original_subject_id
    ∧ ∃ info, hmGet cat.subjects s.id = some info := by
  unfold assignedSubject at h
  cases hiv : e.get "id" with
  | none => rw [hiv, okOr_none, except_error_bind] at h; exact Except.noConfusion h
  | some iv =>
  rw [hiv, okOr_some, except_ok_bind] at h
  cases hivu : iv.asU64 with
  | none => rw [hivu, okOr_none, except_error_bind] at h; exact Except.noConfusion h
  | some i =>
  rw [hivu, okOr_some, except_ok_bind] at h
  cases hov : e.get "orgId" with
  | none => rw [hov, okOr_none, except_error_bind] at h; exact Except.noConfusion h
  | some ov =>
  rw [hov, okOr_some, except_ok_bind] at h
  cases hovu : ov.asU64 with
  | none => rw [hovu, okOr_none, except_error_bind] at h; exact Except.noConfusion h
  | some o =>
  rw [hovu, okOr_some, except_ok_bind] at h
  cases hst : readState e with
  | error m => rw [hst, except_error_bind] at h; exact Except.noConfusion h
  | ok st =>
  rw [hst, except_ok_bind] at h
  unfold buildSubject at h
  cases hinfo : hmGet cat.subjects i with
  | none => rw [hinfo, okOr_none, except_error_bind] at h; exact Except.noConfusion h
  | some info =>
  rw [hinfo, okOr_some, except_ok_bind] at h
  cases hmi : readMissing e with
  | error m => rw [hmi, except_error_bind] at h; exact Except.noConfusion h
  | ok mi =>
  rw [hmi, except_ok_bind] at h
  cases hbc : subjBackColor info e with
  | error m => rw [hbc, except_error_bind] at h; exact Except.noConfusion h
  | ok bc =>
  rw [hbc, except_ok_bind] at h
  cases hfc : subjForeColor e with
  | error m => rw [hfc, except_error_bind] at h; exact Except.noConfusion h
  | ok fc =>
  rw [hfc, except_ok_bind] at h
  injection h with h'
  subst h'
  exact ⟨rfl, info, hinfo⟩

theorem assignedRoom_inv (cat : Catalog) (e : Json) (r : Room)
    (h : assignedRoom cat e = .ok r) :
    r.original_room = hmGet cat.rooms r.original_room_id
    ∧ ∃ info, hmGet cat.rooms r.id = some info := by
  unfold assignedRoom at h
  cases hiv : e.get "id" with
  | none => rw [hiv, okOr_none, except_error_bind] at h; exact Except.noConfusion h
  | some iv =>
  rw [hiv, okOr_some, except_ok_bind] at h
  cases hivu : iv.asU64 with
  | none => rw [hivu, okOr_none, except_error_bind] at h; exact Except.noConfusion h
  | some i =>
  rw [hivu, okOr_some, except_ok_bind] at h
  cases hov : e.get "orgId" with
  | none => rw [hov, okOr_none, except_error_bind] at h; exact Except.noConfusion h
  | some ov =>
  rw [hov, okOr_some, except_ok_bind] at h
  cases hovu : ov.asU64 with
  | none => rw [hovu, okOr_none, except_error_bind] at h; exact Except.noConfusion h
  | some o =>
  rw [hovu, okOr_some, except_ok_bind] at h
  cases hst : readState e with
  | error m => rw [hst, except_error_bind] at h; exact Except.noConfusion h
  | ok st =>
  rw [hst, except_ok_bind] at h
  unfold buildRoom at h
  cases hinfo : hmGet cat.rooms i with
  | none => rw [hinfo, okOr_none, except_error_bind] at h; exact Except.noConfusion h
  | some info =>
  rw [hinfo, okOr_some, except_ok_bind] at h
  cases hmi : readMissing e with
  | error m => rw [hmi, except_error_bind] at h; exact Except.noConfusion h
  | ok mi =>
  rw [hmi, except_ok_bind] at h
  injection h with h'
  subst h'
  exact ⟨rfl, info, hinfo⟩

theorem speakable_text_subst_decomp (p : Period) (subject : Subject)
    (hs : p.state = PeriodState.Substitution) (hsub : p.subject = some subject) :
    p.speakable_text =
      "Änderung bei " ++ subject.long_name ++ " zwischen " ++ p.start_time.format_hm
        ++ " und " ++ p.end_time.format_hm ++ " Uhr: "
        ++ teacherClause p.teacher ++ roomClause p.room ++ p.substitution_text := by
  unfold Period.speakable_text
  rw [hsub, hs]
  rfl

/-- C7: a period with no subject assignment renders the empty string,
whatever its state, assignments and free-text fields. -/
theorem no_subject_renders_empty (p : Period) (h : p.subject = none) :
    p.speakable_text = "" := by
  unfold Period.speakable_text
  rw [h]

/-- C7 witness: `noSubjectPeriod` has no subject and renders empty despite
its deviation state, teacher assignment and free-text fields. -/
theorem no_subject_renders_empty_witness :
    noSubjectPeriod.subject = none ∧ noSubjectPeriod.speakable_text = "" :=
  ⟨rfl, no_subject_renders_empty noSubjectPeriod rfl⟩

/-- C6: a `Cancel` period with a subject renders
`<subject long name> fällt zwischen <start> und <end> Uhr aus!`, the times
zero-padded 24-hour `HH:MM` (`pad2` pads below 10). -/
theorem cancel_line_spec (p : Period) (subject : Subject)
    (hs : p.state = PeriodState.Cancel) (hsub : p.subject = some subject) :
    p.speakable_text =
      subject.long_name ++ " fällt zwischen " ++ p.start_time.format_hm
        ++ " und " ++ p.end_time.format_hm ++ " Uhr aus!"
    ∧ (∀ t : Time, t.format_hm = pad2 t.hour ++ ":" ++ pad2 t.minute)
    ∧ (∀ n : Nat, n < 10 → pad2 n = "0" ++ Nat.repr n)
    ∧ (∀ n : Nat, 10 ≤ n → pad2 n = Nat.repr n) := by
  refine ⟨?_, fun t => rfl, fun n hn => ?_, fun n hn => ?_⟩
  · unfold Period.speakable_text
    rw [hsub, hs]
  · unfold pad2
    rw [if_pos hn]
  · unfold pad2
    rw [if_neg (by omega)]

/-- C6 witness: the spec's cancellation scenario, with 0800/0850 decoded
through `json_value_to_time`. -/
theorem cancel_line_spec_witness :
    cancelPeriod.state = PeriodState.Cancel
    ∧ cancelPeriod.subject = some sampleSubject
    ∧ json_value_to_time (Json.num 800) = Except.ok cancelPeriod.start_time
    ∧ json_value_to_time (Json.num 850) = Except.ok cancelPeriod.end_time
    ∧ cancelPeriod.speakable_text = "Mathematik fällt zwischen 08:00 und 08:50 Uhr aus!" := by
  refine ⟨rfl, rfl, by decide, by decide, ?_⟩
  have h := (cancel_line_spec cancelPeriod sampleSubject rfl rfl).1
  rw [h]
  decide

/-- C5: a `Substitution` period with a subject renders, in order, the
`Änderung bei ... Uhr: ` header, then the teacher clause (present exactly
when a teacher assignment exists, its state is Absent or Substituted and
its original snapshot is present), then the analogous room clause on room
long names, then the substitution note verbatim. -/
theorem substitution_line_spec (p : Period) (subject : Subject)
    (hs : p.state = PeriodState.Substitution) (hsub : p.subject = some subject) :
    p.speakable_text =
      "Änderung bei " ++ subject.long_name ++ " zwischen " ++ p.start_time.format_hm
        ++ " und " ++ p.end_time.format_hm ++ " Uhr: "
        ++ teacherClause p.teacher ++ roomClause p.room ++ p.substitution_text
    ∧ teacherClause none = ""
    ∧ (∀ t : Teacher, t.state = ElementState.Regular → teacherClause (some t) = "")
    ∧ (∀ t : Teacher, t.original_teacher = none → teacherClause (some t) = "")
    ∧ (∀ (t : Teacher) (ot : OriginalTeacher), t.state = ElementState.Absent →
        t.original_teacher = some ot →
        teacherClause (some t) = "Unterricht ohne Lehrer (von '" ++ ot.name ++ "'); ")
    ∧ (∀ (t : Teacher) (ot : OriginalTeacher), t.state = ElementState.Substituted →
        t.original_teacher = some ot →
        teacherClause (some t) =
          "Lehrerwechsel von '" ++ ot.name ++ "' zu '" ++ t.name ++ "'; ")
    ∧ roomClause none = ""
    ∧ (∀ r : Room, r.state = ElementState.Regular → roomClause (some r) = "")
    ∧ (∀ r : Room, r.original_room = none → roomClause (some r) = "")
    ∧ (∀ (r : Room) (og : OriginalRoom), r.state = ElementState.Absent →
        r.original_room = some og →
        roomClause (some r) = "Unterricht ohne Raum (von '" ++ og.long_name ++ "'); ")
    ∧ (∀ (r : Room) (og : OriginalRoom), r.state = ElementState.Substituted →
        r.original_room = some og →
        roomClause (some r) =
          "Raumwechsel von '" ++ og.long_name ++ "' zu '" ++ r.long_name ++ "'; ") := by
  refine ⟨speakable_text_subst_decomp p subject hs hsub, rfl, ?_, ?_, ?_, ?_, rfl, ?_, ?_, ?_, ?_⟩
  · intro t ht
    simp only [teacherClause]
    rw [ht]
  · intro t ht
    simp only [teacherClause]
    cases hst : t.state <;> simp only [] <;> rw [ht]
  · intro t ot hst hot
    simp only [teacherClause]
    rw [hst, hot]
  · intro t ot hst hot
    simp only [teacherClause]
    rw [hst, hot]
  · intro r hr
    simp only [roomClause]
    rw [hr]
  · intro r hr
    simp only [roomClause]
    cases hst : r.state <;> simp only [] <;> rw [hr]
  · intro r og hst hog
    simp only [roomClause]
    rw [hst, hog]
  · intro r og hst hog
    simp only [roomClause]
    rw [hst, hog]

/-- C5 witness: the spec's teacher-substitution scenario (Müller →
Schmidt, Physik, 10:00-10:50, note `Vertretung`). -/
theorem substitution_line_spec_witness :
    scenarioPeriod.state = PeriodState.Substitution
    ∧ scenarioPeriod.subject = some physikSubject
    ∧ scenarioPeriod.speakable_text =
        "Änderung bei Physik zwischen 10:00 und 10:50 Uhr: Lehrerwechsel von 'Müller' zu 'Schmidt'; Vertretung" := by
  refine ⟨rfl, rfl, ?_⟩
  have h := (substitution_line_spec scenarioPeriod physikSubject rfl rfl).1
  rw [h]
  decide

/-- C1 counterexample: extraction of `sampleTimetable` succeeds and yields
a period whose teacher assignment has current id equal to original id but
state `Substituted`; its rendered teacher clause is
`Lehrerwechsel von 'Alice' zu 'Alice'; `, not the empty string, and it
appears in the rendered line. -/
theorem equal_ids_substituted_clause_nonempty :
    parse_timetable sampleTimetable 5 = Except.ok [samplePeriod]
    ∧ samplePeriod.teacher = some sampleTeacher
    ∧ sampleTeacher.id = sampleTeacher.original_teacher_id
    ∧ teacherClause (some sampleTeacher) = "Lehrerwechsel von 'Alice' zu 'Alice'; "
    ∧ teacherClause (some sampleTeacher) ≠ ""
    ∧ samplePeriod.speakable_text =
        "Änderung bei Mathematik zwischen 10:00 und 10:50 Uhr: Lehrerwechsel von 'Alice' zu 'Alice'; Vertretung" :=
  ⟨by decide, rfl, rfl, by decide, by decide, by decide⟩

/-- C1 (amended): the ElementState-driven clause of an assignment is empty
whenever its ElementState is `Regular` (and also when its original
snapshot is absent); equality of current and original ids does not by
itself make the clause empty. -/
theorem regular_state_clause_empty :
    (∀ t : Teacher, t.state = ElementState.Regular → teacherClause (some t) = "")
    ∧ (∀ t : Teacher, t.original_teacher = none → teacherClause (some t) = "")
    ∧ (∀ r : Room, r.state = ElementState.Regular → roomClause (some r) = "")
    ∧ (∀ r : Room, r.original_room = none → roomClause (some r) = "") := by
  refine ⟨fun t ht => ?_, fun t ht => ?_, fun r hr => ?_, fun r hr => ?_⟩
  · simp only [teacherClause]
    rw [ht]
  · simp only [teacherClause]
    cases hst : t.state <;> simp only [] <;> rw [ht]
  · simp only [roomClause]
    rw [hr]
  · simp only [roomClause]
    cases hst : r.state <;> simp only [] <;> rw [hr]

/-- C1 (amended) witness: a `Regular` teacher and a `Regular` room, both
with current id equal to original id, produce empty clauses. -/
theorem regular_state_clause_empty_witness :
    regTeacher.state = ElementState.Regular ∧ teacherClause (some regTeacher) = ""
    ∧ regRoom.state = ElementState.Regular ∧ roomClause (some regRoom) = "" :=
  ⟨rfl, regular_state_clause_empty.1 regTeacher rfl,
   rfl, regular_state_clause_empty.2.2.1 regRoom rfl⟩

/-- C2 counterexample: extraction of `sampleTimetable` succeeds, and both
the teacher and the subject assignment have original id equal to current
id yet carry a `some` original snapshot (the snapshot tracks lookup
success alone, not id inequality). -/
theorem equal_ids_snapshot_present :
    parse_timetable sampleTimetable 5 = Except.ok [samplePeriod]
    ∧ samplePeriod.teacher = some sampleTeacher
    ∧ sampleTeacher.original_teacher_id = sampleTeacher.id
    ∧ sampleTeacher.original_teacher = some sampleOT
    ∧ samplePeriod.subject = some sampleSubject
    ∧ sampleSubject.original_subject_id = sampleSubject.id
    ∧ sampleSubject.original_subject = some sampleOS :=
  ⟨by decide, rfl, rfl, rfl, rfl, rfl, rfl⟩

/-- C2 (amended): for every assignment constructed by extraction, the
original snapshot equals the Catalog lookup of the original id — `some`
exactly when the original id resolves, regardless of whether it differs
from the current id; when the original id equals the current id the
snapshot is always `some` (the current id must resolve). -/
theorem snapshot_iff_original_resolves :
    (∀ (cat : Catalog) (acc acc' : Assignments) (e : Json) (t : Teacher),
      jsonTag e = some 2 → stepElem cat acc e = .ok acc' → acc'.teacher = some t →
      t.original_teacher = hmGet cat.teachers t.original_teacher_id
      ∧ (t.original_teacher_id = t.id → ∃ info, t.original_teacher = some info))
    ∧ (∀ (cat : Catalog) (acc acc' : Assignments) (e : Json) (s : Subject),
      jsonTag e = some 3 → stepElem cat acc e = .ok acc' → acc'.subject = some s →
      s.original_subject = hmGet cat.subjects s.original_subject_id
      ∧ (s.original_subject_id = s.id → ∃ info, s.original_subject = some info))
    ∧ (∀ (cat : Catalog) (acc acc' : Assignments) (e : Json) (r : Room),
      jsonTag e = some 4 → stepElem cat acc e = .ok acc' → acc'.room = some r →
      r.original_room = hmGet cat.rooms r.original_room_id
      ∧ (r.original_room_id = r.id → ∃ info, r.original_room = some info)) := by
  refine ⟨?_, ?_, ?_⟩
  · intro cat acc acc' e t htag hstep ht
    rw [stepElem_tag2 cat acc e htag] at hstep
    cases ha : assignedTeacher cat e with
    | error m => rw [ha, except_map_error] at hstep; exact Except.noConfusion hstep
    | ok t' =>
      rw [ha, except_map_ok] at hstep
      injection hstep with h'
      rw [← h'] at ht
      simp only [Option.some.injEq] at ht
      obtain ⟨hsnap, info, hinfo⟩ := assignedTeacher_inv cat e t' ha
      subst ht
      refine ⟨hsnap, fun heq => ⟨info, ?_⟩⟩
      rw [hsnap, heq, hinfo]
  · intro cat acc acc' e s htag hstep hs
    rw [stepElem_tag3 cat acc e htag] at hstep
    cases ha : assignedSubject cat e with
    | error m => rw [ha, except_map_error] at hstep; exact Except.noConfusion hstep
    | ok s' =>
      rw [ha, except_map_ok] at hstep
      injection hstep with h'
      rw [← h'] at hs
      simp only [Option.some.injEq] at hs
      obtain ⟨hsnap, info, hinfo⟩ := assignedSubject_inv cat e s' ha
      subst hs
      refine ⟨hsnap, fun heq => ⟨info, ?_⟩⟩
      rw [hsnap, heq, hinfo]
  · intro cat acc acc' e r htag hstep hr
    rw [stepElem_tag4 cat acc e htag] at hstep
    cases ha : assignedRoom cat e with
    | error m => rw [ha, except_map_error] at hstep; exact Except.noConfusion hstep
    | ok r' =>
      rw [ha, except_map_ok] at hstep
      injection hstep with h'
      rw [← h'] at hr
      simp only [Option.some.injEq] at hr
      obtain ⟨hsnap, info, hinfo⟩ := assignedRoom_inv cat e r' ha
      subst hr
      refine ⟨hsnap, fun heq => ⟨info, ?_⟩⟩
      rw [hsnap, heq, hinfo]

/-- C2 (amended) witness: processing `perOrphanOrgElem` (original id 77
unresolvable) and `perTeacherElem` (original id 1 = current id, resolvable)
against `sampleCatalog`. -/
theorem snapshot_iff_original_resolves_witness :
    jsonTag perTeacherElem = some 2
    ∧ stepElem sampleCatalog ⟨none, none, none⟩ perTeacherElem =
        .ok ⟨none, some sampleTeacher, none⟩
    ∧ (sampleTeacher.original_teacher = hmGet sampleCatalog.teachers sampleTeacher.original_teacher_id
        ∧ (sampleTeacher.original_teacher_id = sampleTeacher.id →
            ∃ info, sampleTeacher.original_teacher = some info)) := by
  refine ⟨by decide, by decide, ?_⟩
  exact snapshot_iff_original_resolves.1 sampleCatalog ⟨none, none, none⟩
    ⟨none, some sampleTeacher, none⟩ perTeacherElem sampleTeacher
    (by decide) (by decide) rfl

/-- C3: decoding a non-negative integer time value: with `ds` its decimal
digit representation (`Nat.repr n` spelled as a digit list), a length-4
representation splits as first two digits = hours, last two = minutes; a
length-3 representation as first digit = hours, last two = minutes; any
other length is an error; and in-range-length values whose hour exceeds 23
or minutes exceed 59 are errors.  Concretely `900 ↦ 09:00`, `1430 ↦
14:30`, and `30000` and `5` are errors. -/
theorem except_pure_bind (a : α) (f : α → Except ε β) :
    ((pure a : Except ε α) >>= f) = f a := rfl

theorem time_decoding_spec (n : Nat) :
    (Nat.repr n).length = (Nat.toDigits 10 n).length
    ∧ ((Nat.toDigits 10 n).length = 4 →
        digitsToNat ((Nat.toDigits 10 n).take 2) ≤ 23 →
        digitsToNat ((Nat.toDigits 10 n).drop 2) ≤ 59 →
        json_value_to_time (Json.num (Int.ofNat n)) =
          .ok ⟨digitsToNat ((Nat.toDigits 10 n).take 2),
               digitsToNat ((Nat.toDigits 10 n).drop 2), 0⟩)
    ∧ ((Nat.toDigits 10 n).length = 4 →
        (23 < digitsToNat ((Nat.toDigits 10 n).take 2) ∨
         59 < digitsToNat ((Nat.toDigits 10 n).drop 2)) →
        (json_value_to_time (Json.num (Int.ofNat n))).isOk = false)
    ∧ ((Nat.toDigits 10 n).length = 3 →
        digitsToNat ((Nat.toDigits 10 n).take 1) ≤ 23 →
        digitsToNat ((Nat.toDigits 10 n).drop 1) ≤ 59 →
        json_value_to_time (Json.num (Int.ofNat n)) =
          .ok ⟨digitsToNat ((Nat.toDigits 10 n).take 1),
               digitsToNat ((Nat.toDigits 10 n).drop 1), 0⟩)
    ∧ ((Nat.toDigits 10 n).length = 3 →
        (23 < digitsToNat ((Nat.toDigits 10 n).take 1) ∨
         59 < digitsToNat ((Nat.toDigits 10 n).drop 1)) →
        (json_value_to_time (Json.num (Int.ofNat n))).isOk = false)
    ∧ ((Nat.toDigits 10 n).length ≠ 4 → (Nat.toDigits 10 n).length ≠ 3 →
        (json_value_to_time (Json.num (Int.ofNat n))).isOk = false)
    ∧ json_value_to_time (Json.num 900) = .ok ⟨9, 0, 0⟩
    ∧ json_value_to_time (Json.num 1430) = .ok ⟨14, 30, 0⟩
    ∧ (json_value_to_time (Json.num 30000)).isOk = false
    ∧ (json_value_to_time (Json.num 5)).isOk = false := by
  have hu : Json.asU64 (Json.num (Int.ofNat n)) = some n := by
    simp [Json.asU64]
  refine ⟨rfl, ?_, ?_, ?_, ?_, ?_, by decide, by decide, by decide, by decide⟩
  · intro hlen hh hm
    simp only [json_value_to_time, hu, okOr_some, except_ok_bind]
    rw [if_pos hlen, except_pure_bind]
    dsimp only
    unfold Time.from_hms_opt
    rw [if_pos ⟨hh, hm, by omega⟩, okOr_some]
  · intro hlen hout
    simp only [json_value_to_time, hu, okOr_some, except_ok_bind]
    rw [if_pos hlen, except_pure_bind]
    dsimp only
    unfold Time.from_hms_opt
    rw [if_neg (by omega), okOr_none]
    rfl
  · intro hlen hh hm
    simp only [json_value_to_time, hu, okOr_some, except_ok_bind]
    rw [if_neg (by omega), if_pos hlen, except_pure_bind]
    dsimp only
    unfold Time.from_hms_opt
    rw [if_pos ⟨hh, hm, by omega⟩, okOr_some]
  · intro hlen hout
    simp only [json_value_to_time, hu, okOr_some, except_ok_bind]
    rw [if_neg (by omega), if_pos hlen, except_pure_bind]
    dsimp only
    unfold Time.from_hms_opt
    rw [if_neg (by omega), okOr_none]
    rfl
  · intro h4 h3
    simp only [json_value_to_time, hu, okOr_some, except_ok_bind]
    rw [if_neg h4, if_neg h3, except_error_bind]
    rfl

/-- C3 witness: the four concrete examples, via the general statement at
`n = 1430` (length-4 success) and the closed conjuncts. -/
theorem time_decoding_spec_witness :
    (Nat.toDigits 10 1430).length = 4
    ∧ json_value_to_time (Json.num 1430) = .ok ⟨14, 30, 0⟩
    ∧ json_value_to_time (Json.num 900) = .ok ⟨9, 0, 0⟩
    ∧ (json_value_to_time (Json.num 30000)).isOk = false
    ∧ (json_value_to_time (Json.num 5)).isOk = false :=
  ⟨by decide,
   (time_decoding_spec 1430).2.1 (by decide) (by decide) (by decide),
   (time_decoding_spec 900).2.2.2.2.2.2.1,
   (time_decoding_spec 30000).2.2.2.2.2.2.2.2.1,
   (time_decoding_spec 5).2.2.2.2.2.2.2.2.2⟩

theorem catalogSteps_cons (cats : Catalog) (e : Json) (es : List Json) :
    catalogSteps cats (e :: es) = catalogStep cats e >>= fun c => catalogSteps c es := by
  simp [catalogSteps, List.foldlM_cons]

theorem catalogSteps_append (cats : Catalog) (l₁ l₂ : List Json) :
    catalogSteps cats (l₁ ++ l₂) = catalogSteps cats l₁ >>= fun c => catalogSteps c l₂ := by
  simp [catalogSteps, List.foldlM_append]

theorem elementOk_eq_elemUpdate (cat : Catalog) (e : Json) :
    elementOk cat e = (elemUpdate cat e).isOk := by
  unfold elementOk
  rw [stepElem_eq_update, except_isOk_map]

/-- C8: unrecognized type tags are treated asymmetrically.  In the
Catalog-population step an element with a tag outside 2/3/4 (and readable
type and id) is skipped: the step returns the catalog unchanged, and the
whole population loop behaves as if the element were absent.  In the
period-assignment step an element with a tag outside 2/3/4 always makes
the step fail. -/
theorem unknown_tag_asymmetry :
    (∀ (cats : Catalog) (e : Json) (n i : Nat),
      jsonTag e = some n → jsonId e = some i → n ≠ 2 → n ≠ 3 → n ≠ 4 →
      catalogStep cats e = .ok cats)
    ∧ (∀ (cats : Catalog) (l₁ l₂ : List Json) (e : Json) (n i : Nat),
      jsonTag e = some n → jsonId e = some i → n ≠ 2 → n ≠ 3 → n ≠ 4 →
      catalogSteps cats (l₁ ++ e :: l₂) = catalogSteps cats (l₁ ++ l₂))
    ∧ (∀ (cat : Catalog) (acc : Assignments) (e : Json) (n : Nat),
      jsonTag e = some n → n ≠ 2 → n ≠ 3 → n ≠ 4 →
      (stepElem cat acc e).isOk = false) := by
  have hskip : ∀ (cats : Catalog) (e : Json) (n i : Nat),
      jsonTag e = some n → jsonId e = some i → n ≠ 2 → n ≠ 3 → n ≠ 4 →
      catalogStep cats e = .ok cats := by
    intro cats e n i htag hid h2 h3 h4
    unfold jsonTag at htag
    unfold jsonId at hid
    obtain ⟨tv, htv, htu⟩ := Option.bind_eq_some.mp htag
    obtain ⟨iv, hiv, hivu⟩ := Option.bind_eq_some.mp hid
    unfold catalogStep
    rw [htv, okOr_some, except_ok_bind, htu, okOr_some, except_ok_bind,
      hiv, okOr_some, except_ok_bind, hivu, okOr_some, except_ok_bind,
      if_neg h2, if_neg h3, if_neg h4]
    rfl
  refine ⟨hskip, ?_, ?_⟩
  · intro cats l₁ l₂ e n i htag hid h2 h3 h4
    rw [catalogSteps_append, catalogSteps_append]
    apply except_bind_congr; intro c
    rw [catalogSteps_cons, hskip c e n i htag hid h2 h3 h4, except_ok_bind]
  · intro cat acc e n htag h2 h3 h4
    rw [stepElem_eq_update, except_isOk_map]
    exact elemUpdate_tagOther cat e n htag h2 h3 h4

/-- C8 witness: tag 7 is skipped by the catalog step (catalog unchanged,
loop continues as if the element were absent) but fails the assignment
step. -/
theorem unknown_tag_asymmetry_witness :
    catalogStep sampleCatalog unknownTagCatElem = .ok sampleCatalog
    ∧ catalogSteps sampleCatalog [unknownTagCatElem, catTeacherElem] =
        catalogSteps sampleCatalog [catTeacherElem]
    ∧ (stepElem sampleCatalog ⟨none, none, none⟩ unknownTagAsgElem).isOk = false :=
  ⟨unknown_tag_asymmetry.1 sampleCatalog unknownTagCatElem 7 99 (by decide) (by decide)
     (by decide) (by decide) (by decide),
   unknown_tag_asymmetry.2.1 sampleCatalog [] [catTeacherElem] unknownTagCatElem 7 99
     (by decide) (by decide) (by decide) (by decide) (by decide),
   unknown_tag_asymmetry.2.2 sampleCatalog ⟨none, none, none⟩ unknownTagAsgElem 7
     (by decide) (by decide) (by decide) (by decide)⟩

theorem except_isOk_false_bind {x : Except ε α} (f : α → Except ε β)
    (h : x.isOk = false) : (x >>= f).isOk = false := by
  cases x with
  | error e => rfl
  | ok a => exact absurd h (by simp [Except.isOk, Except.toBool])

theorem mapM_except_isOk_false_of_mem {f : α → Except ε β} (l : List α) (x : α)
    (hx : x ∈ l) (hf : (f x).isOk = false) : (l.mapM f).isOk = false := by
  induction l with
  | nil => exact absurd hx (List.not_mem_nil x)
  | cons a l ih =>
    rw [List.mapM_cons]
    rcases List.mem_cons.mp hx with rfl | hmem
    · cases hfa : f x with
      | error m => rw [except_error_bind]; rfl
      | ok b =>
        rw [hfa] at hf
        exact absurd hf (by simp [Except.isOk, Except.toBool])
    · cases hfa : f a with
      | error m => rw [except_error_bind]; rfl
      | ok b =>
        rw [except_ok_bind]
        exact except_isOk_false_bind _ (ih hmem)

/-- C9: an assignment element whose current id has no entry in the
matching Catalog mapping makes the whole assignment loop fail, which
propagates through the period parse and the whole extraction (hence no
Period list is produced); an element whose original id fails to resolve —
every other read succeeding — processes successfully, with the original
snapshot `none`. -/
theorem unresolved_reference_handling :
    (∀ (cat : Catalog) (acc : Assignments) (es : List Json) (e : Json) (i : Nat),
      e ∈ es → jsonTag e = some 2 → jsonId e = some i → hmGet cat.teachers i = none →
      (stepElems cat acc es).isOk = false)
    ∧ (∀ (cat : Catalog) (acc : Assignments) (es : List Json) (e : Json) (i : Nat),
      e ∈ es → jsonTag e = some 3 → jsonId e = some i → hmGet cat.subjects i = none →
      (stepElems cat acc es).isOk = false)
    ∧ (∀ (cat : Catalog) (acc : Assignments) (es : List Json) (e : Json) (i : Nat),
      e ∈ es → jsonTag e = some 4 → jsonId e = some i → hmGet cat.rooms i = none →
      (stepElems cat acc es).isOk = false)
    ∧ (∀ (cat : Catalog) (acc : Assignments) (e : Json) (i o : Nat) (st : ElementState)
        (mi : Bool) (info : OriginalTeacher),
      jsonTag e = some 2 → jsonId e = some i → jsonOrgId e = some o →
      readState e = .ok st → readMissing e = .ok mi →
      hmGet cat.teachers i = some info → hmGet cat.teachers o = none →
      stepElem cat acc e = .ok { acc with teacher := some (
        { id := i, original_teacher_id := o, original_teacher := none,
          missing := mi, state := st, name := info.name,
          can_view_timetable := info.can_view_timetable,
          ext_key := info.ext_key, room_capacity := info.room_capacity }) })
    ∧ (∀ (cat : Catalog) (acc : Assignments) (e : Json) (i o : Nat) (st : ElementState)
        (mi : Bool) (info : OriginalSubject) (bc : String) (fc : Option String),
      jsonTag e = some 3 → jsonId e = some i → jsonOrgId e = some o →
      readState e = .ok st → readMissing e = .ok mi →
      hmGet cat.subjects i = some info →
      subjBackColor info e = .ok bc → subjForeColor e = .ok fc →
      hmGet cat.subjects o = none →
      stepElem cat acc e = .ok { acc with subject := some (
        { id := i, original_subject_id := o, original_subject := none,
          missing := mi, state := st, name := info.name,
          long_name := info.long_name, display_name := info.display_name,
          alternate_name := info.alternate_name, back_color := bc,
          can_view_timetable := info.can_view_timetable,
          room_capacity := info.room_capacity, fore_color := fc }) })
    ∧ (∀ (cat : Catalog) (acc : Assignments) (e : Json) (i o : Nat) (st : ElementState)
        (mi : Bool) (info : OriginalRoom),
      jsonTag e = some 4 → jsonId e = some i → jsonOrgId e = some o →
      readState e = .ok st → readMissing e = .ok mi →
      hmGet cat.rooms i = some info → hmGet cat.rooms o = none →
      stepElem cat acc e = .ok { acc with room := some (
        { id := i, original_room_id := o, original_room := none,
          missing := mi, state := st, name := info.name,
          long_name := info.long_name, displayname := info.displayname,
          alternatename := info.alternatename,
          can_view_timetable := info.can_view_timetable,
          room_capacity := info.room_capacity }) })
    ∧ (∀ (cat : Catalog) (period ev : Json) (es : List Json) (e : Json) (i : Nat),
      period.get "elements" = some ev → ev.asArr = some es → e ∈ es →
      jsonTag e = some 2 → jsonId e = some i → hmGet cat.teachers i = none →
      (parsePeriod cat period).isOk = false)
    ∧ (∀ (timetable : Json) (person_id : Nat) (d1 d2 data ev : Json)
        (catElems : List Json) (cat : Catalog) (pv pv2 : Json) (periods : List Json)
        (period ev2 : Json) (es : List Json) (e : Json) (i : Nat),
      timetable.get "data" = some d1 → d1.get "result" = some d2 →
      d2.get "data" = some data → data.get "elements" = some ev →
      ev.asArr = some catElems → catalogSteps ⟨[], [], []⟩ catElems = .ok cat →
      data.get "elementPeriods" = some pv → pv.get (Nat.repr person_id) = some pv2 →
      pv2.asArr = some periods → period ∈ periods →
      period.get "elements" = some ev2 → ev2.asArr = some es → e ∈ es →
      jsonTag e = some 2 → jsonId e = some i → hmGet cat.teachers i = none →
      (parse_timetable timetable person_id).isOk = false) := by
  have hloop : ∀ (cat : Catalog) (acc : Assignments) (es : List Json) (e : Json) (i : Nat),
      e ∈ es → jsonTag e = some 2 → jsonId e = some i → hmGet cat.teachers i = none →
      (stepElems cat acc es).isOk = false := by
    intro cat acc es e i he htag hid hmiss
    apply stepElems_isOk_false_of_mem cat es acc e he
    rw [elementOk_eq_elemUpdate, elemUpdate_tag2 cat e htag, except_isOk_map]
    exact assignedTeacher_error_of_unresolved cat e i hid hmiss
  have hperiod : ∀ (cat : Catalog) (period ev : Json) (es : List Json) (e : Json) (i : Nat),
      period.get "elements" = some ev → ev.asArr = some es → e ∈ es →
      jsonTag e = some 2 → jsonId e = some i → hmGet cat.teachers i = none →
      (parsePeriod cat period).isOk = false := by
    intro cat period ev es e i hev hes he htag hid hmiss
    unfold parsePeriod
    rw [hev, okOr_some, except_ok_bind, hes, okOr_some, except_ok_bind]
    exact except_isOk_false_bind _ (hloop cat ⟨none, none, none⟩ es e i he htag hid hmiss)
  refine ⟨hloop, ?_, ?_, ?_, ?_, ?_, hperiod, ?_⟩
  · intro cat acc es e i he htag hid hmiss
    apply stepElems_isOk_false_of_mem cat es acc e he
    rw [elementOk_eq_elemUpdate, elemUpdate_tag3 cat e htag, except_isOk_map]
    exact assignedSubject_error_of_unresolved cat e i hid hmiss
  · intro cat acc es e i he htag hid hmiss
    apply stepElems_isOk_false_of_mem cat es acc e he
    rw [elementOk_eq_elemUpdate, elemUpdate_tag4 cat e htag, except_isOk_map]
    exact assignedRoom_error_of_unresolved cat e i hid hmiss
  · intro cat acc e i o st mi info htag hid hoid hst hmi hinfo hmiss
    rw [stepElem_tag2 cat acc e htag,
      assignedTeacher_eq cat e i o st mi info hid hoid hst hmi hinfo,
      except_map_ok, hmiss]
  · intro cat acc e i o st mi info bc fc htag hid hoid hst hmi hinfo hbc hfc hmiss
    rw [stepElem_tag3 cat acc e htag,
      assignedSubject_eq cat e i o st mi info bc fc hid hoid hst hmi hinfo hbc hfc,
      except_map_ok, hmiss]
  · intro cat acc e i o st mi info htag hid hoid hst hmi hinfo hmiss
    rw [stepElem_tag4 cat acc e htag,
      assignedRoom_eq cat e i o st mi info hid hoid hst hmi hinfo,
      except_map_ok, hmiss]
  · intro timetable person_id d1 d2 data ev catElems cat pv pv2 periods period ev2 es e i
      h1 h2 h3 h4 h5 h6 h7 h8 h9 hp hev hes he htag hid hmiss
    unfold parse_timetable
    rw [h1, okOr_some, except_ok_bind, h2, okOr_some, except_ok_bind,
      h3, okOr_some, except_ok_bind, h4, okOr_some, except_ok_bind,
      h5, okOr_some, except_ok_bind, h6, except_ok_bind,
      h7, okOr_some, except_ok_bind, h8, okOr_some, except_ok_bind,
      h9, okOr_some, except_ok_bind]
    exact mapM_except_isOk_false_of_mem periods period hp
      (hperiod cat period ev2 es e i hev hes he htag hid hmiss)

/-- C9 witness: against `sampleCatalog`, the element with unresolvable
current id 42 fails the whole loop, while the element with unresolvable
original id 77 succeeds with snapshot `none`. -/
theorem unresolved_reference_handling_witness :
    (stepElems sampleCatalog ⟨none, none, none⟩
        [perSubjectElem, perUnresolvedElem]).isOk = false
    ∧ stepElem sampleCatalog ⟨none, none, none⟩ perOrphanOrgElem =
        .ok ⟨none, some orphanTeacher, none⟩
    ∧ (parsePeriod parsedCatalog badPeriodJson).isOk = false
    ∧ (parse_timetable badTimetable 5).isOk = false :=
  ⟨unresolved_reference_handling.1 sampleCatalog ⟨none, none, none⟩
     [perSubjectElem, perUnresolvedElem] perUnresolvedElem 42
     (List.mem_cons_of_mem _ (List.mem_cons_self _ _)) (by decide) (by decide) (by decide),
   unresolved_reference_handling.2.2.2.1 sampleCatalog ⟨none, none, none⟩
     perOrphanOrgElem 1 77 ElementState.Substituted false sampleOT
     (by decide) (by decide) (by decide) (by decide) (by decide) (by decide) (by decide),
   unresolved_reference_handling.2.2.2.2.2.2.1 parsedCatalog badPeriodJson
     (.arr [perUnresolvedElem, perSubjectElem]) [perUnresolvedElem, perSubjectElem]
     perUnresolvedElem 42 rfl rfl (List.mem_cons_self _ _) rfl rfl rfl,
   unresolved_reference_handling.2.2.2.2.2.2.2 badTimetable 5
     (.obj [("result", .obj [("data", .obj [
        ("elements", .arr [catTeacherElem, catSubjectElem]),
        ("elementPeriods", .obj [("5", .arr [badPeriodJson])])])])])
     (.obj [("data", .obj [
        ("elements", .arr [catTeacherElem, catSubjectElem]),
        ("elementPeriods", .obj [("5", .arr [badPeriodJson])])])])
     (.obj [("elements", .arr [catTeacherElem, catSubjectElem]),
        ("elementPeriods", .obj [("5", .arr [badPeriodJson])])])
     (.arr [catTeacherElem, catSubjectElem]) [catTeacherElem, catSubjectElem]
     parsedCatalog
     (.obj [("5", .arr [badPeriodJson])]) (.arr [badPeriodJson]) [badPeriodJson]
     badPeriodJson (.arr [perUnresolvedElem, perSubjectElem])
     [perUnresolvedElem, perSubjectElem] perUnresolvedElem 42
     rfl rfl rfl rfl rfl rfl rfl rfl rfl (List.mem_cons_self _ _)
     rfl rfl (List.mem_cons_self _ _) rfl rfl rfl⟩

/-- C10: duplicate assignment tags in one period do not make extraction
fail (each element processing successfully on its own), and the
constructed slot keeps only the assignment built from the last element of
that tag in source order, for teachers, subjects and rooms alike. -/
theorem duplicate_assignment_last_wins :
    (∀ (cat : Catalog) (acc : Assignments) (l₁ l₂ : List Json) (e : Json),
      (∀ x ∈ l₁ ++ e :: l₂, elementOk cat x = true) →
      jsonTag e = some 2 → (∀ x ∈ l₂, jsonTag x ≠ some 2) →
      ∃ (res : Assignments) (t : Teacher),
        stepElems cat acc (l₁ ++ e :: l₂) = .ok res
        ∧ assignedTeacher cat e = .ok t ∧ res.teacher = some t)
    ∧ (∀ (cat : Catalog) (acc : Assignments) (l₁ l₂ : List Json) (e : Json),
      (∀ x ∈ l₁ ++ e :: l₂, elementOk cat x = true) →
      jsonTag e = some 3 → (∀ x ∈ l₂, jsonTag x ≠ some 3) →
      ∃ (res : Assignments) (s : Subject),
        stepElems cat acc (l₁ ++ e :: l₂) = .ok res
        ∧ assignedSubject cat e = .ok s ∧ res.subject = some s)
    ∧ (∀ (cat : Catalog) (acc : Assignments) (l₁ l₂ : List Json) (e : Json),
      (∀ x ∈ l₁ ++ e :: l₂, elementOk cat x = true) →
      jsonTag e = some 4 → (∀ x ∈ l₂, jsonTag x ≠ some 4) →
      ∃ (res : Assignments) (r : Room),
        stepElems cat acc (l₁ ++ e :: l₂) = .ok res
        ∧ assignedRoom cat e = .ok r ∧ res.room = some r) := by
  refine ⟨?_, ?_, ?_⟩
  · intro cat acc l₁ l₂ e hall htag hafter
    have hok := stepElems_isOk_of_all cat (l₁ ++ e :: l₂) acc hall
    obtain ⟨res, hres⟩ := (except_isOk_true_iff _).mp hok
    refine ⟨res, ?_⟩
    rw [stepElems_append] at hres
    cases h1 : stepElems cat acc l₁ with
    | error m => rw [h1, except_error_bind] at hres; exact Except.noConfusion hres
    | ok a₁ =>
      rw [h1, except_ok_bind, stepElems_cons] at hres
      cases h2 : stepElem cat a₁ e with
      | error m => rw [h2, except_error_bind] at hres; exact Except.noConfusion hres
      | ok a₂ =>
        rw [h2, except_ok_bind] at hres
        rw [stepElem_tag2 cat a₁ e htag] at h2
        cases ha : assignedTeacher cat e with
        | error m => rw [ha, except_map_error] at h2; exact Except.noConfusion h2
        | ok t =>
          rw [ha, except_map_ok] at h2
          injection h2 with h2'
          refine ⟨t, ?_, rfl, ?_⟩
          · rw [stepElems_append, h1, except_ok_bind, stepElems_cons,
              stepElem_tag2 cat a₁ e htag, ha, except_map_ok, except_ok_bind, h2']
            exact hres
          · have hpres := stepElems_teacher_preserved cat l₂ a₂ res hres hafter
            rw [hpres, ← h2']
  · intro cat acc l₁ l₂ e hall htag hafter
    have hok := stepElems_isOk_of_all cat (l₁ ++ e :: l₂) acc hall
    obtain ⟨res, hres⟩ := (except_isOk_true_iff _).mp hok
    refine ⟨res, ?_⟩
    rw [stepElems_append] at hres
    cases h1 : stepElems cat acc l₁ with
    | error m => rw [h1, except_error_bind] at hres; exact Except.noConfusion hres
    | ok a₁ =>
      rw [h1, except_ok_bind, stepElems_cons] at hres
      cases h2 : stepElem cat a₁ e with
      | error m => rw [h2, except_error_bind] at hres; exact Except.noConfusion hres
      | ok a₂ =>
        rw [h2, except_ok_bind] at hres
        rw [stepElem_tag3 cat a₁ e htag] at h2
        cases ha : assignedSubject cat e with
        | error m => rw [ha, except_map_error] at h2; exact Except.noConfusion h2
        | ok s =>
          rw [ha, except_map_ok] at h2
          injection h2 with h2'
          refine ⟨s, ?_, rfl, ?_⟩
          · rw [stepElems_append, h1, except_ok_bind, stepElems_cons,
              stepElem_tag3 cat a₁ e htag, ha, except_map_ok, except_ok_bind, h2']
            exact hres
          · have hpres := stepElems_subject_preserved cat l₂ a₂ res hres hafter
            rw [hpres, ← h2']
  · intro cat acc l₁ l₂ e hall htag hafter
    have hok := stepElems_isOk_of_all cat (l₁ ++ e :: l₂) acc hall
    obtain ⟨res, hres⟩ := (except_isOk_true_iff _).mp hok
    refine ⟨res, ?_⟩
    rw [stepElems_append] at hres
    cases h1 : stepElems cat acc l₁ with
    | error m => rw [h1, except_error_bind] at hres; exact Except.noConfusion hres
    | ok a₁ =>
      rw [h1, except_ok_bind, stepElems_cons] at hres
      cases h2 : stepElem cat a₁ e with
      | error m => rw [h2, except_error_bind] at hres; exact Except.noConfusion hres
      | ok a₂ =>
        rw [h2, except_ok_bind] at hres
        rw [stepElem_tag4 cat a₁ e htag] at h2
        cases ha : assignedRoom cat e with
        | error m => rw [ha, except_map_error] at h2; exact Except.noConfusion h2
        | ok r =>
          rw [ha, except_map_ok] at h2
          injection h2 with h2'
          refine ⟨r, ?_, rfl, ?_⟩
          · rw [stepElems_append, h1, except_ok_bind, stepElems_cons,
              stepElem_tag4 cat a₁ e htag, ha, except_map_ok, except_ok_bind, h2']
            exact hres
          · have hpres := stepElems_room_preserved cat l₂ a₂ res hres hafter
            rw [hpres, ← h2']

/-- C10 witness: a period with two teacher elements (ids 1 then 2) against
`sampleCatalog` extracts successfully and keeps only the teacher built
from the second element. -/
theorem duplicate_assignment_last_wins_witness :
    (∀ x ∈ [perTeacherElem, perTeacherElemB], elementOk sampleCatalog x = true)
    ∧ (∃ (res : Assignments) (t : Teacher),
        stepElems sampleCatalog ⟨none, none, none⟩ [perTeacherElem, perTeacherElemB] = .ok res
        ∧ assignedTeacher sampleCatalog perTeacherElemB = .ok t ∧ res.teacher = some t)
    ∧ stepElems sampleCatalog ⟨none, none, none⟩ [perTeacherElem, perTeacherElemB] =
        .ok ⟨none, some bobTeacher, none⟩ := by
  refine ⟨by decide, ?_, by decide⟩
  exact duplicate_assignment_last_wins.1 sampleCatalog ⟨none, none, none⟩
    [perTeacherElem] [] perTeacherElemB (by decide) (by decide)
    (fun x hx => absurd hx (List.not_mem_nil x))

theorem lexLe_refl : ∀ xs : List Nat, lexLe xs xs = true
  | [] => rfl
  | x :: xs => by
    unfold lexLe
    simp only [if_neg (Nat.lt_irrefl x)]
    exact lexLe_refl xs

theorem lexLe_total : ∀ xs ys : List Nat, (lexLe xs ys || lexLe ys xs) = true
  | [], ys => by simp [lexLe]
  | x :: xs, [] => by simp [lexLe]
  | x :: xs, y :: ys => by
    unfold lexLe
    rcases Nat.lt_trichotomy x y with h | h | h
    · simp only [if_pos h]
      simp
    · subst h
      simp only [if_neg (Nat.lt_irrefl x)]
      exact lexLe_total xs ys
    · simp only [if_neg (by omega : ¬ x < y), if_pos h]
      simp

theorem lexLe_trans : ∀ xs ys zs : List Nat,
    lexLe xs ys = true → lexLe ys zs = true → lexLe xs zs = true
  | [], _, _ => by intro _ _; rfl
  | x :: xs, [], _ => by intro h _; simp [lexLe] at h
  | x :: xs, y :: ys, [] => by intro _ h; simp [lexLe] at h
  | x :: xs, y :: ys, z :: zs => by
    intro h1 h2
    unfold lexLe at h1 h2 ⊢
    by_cases hxy : x < y
    · have hyz : ¬ z < y := by
        intro hzy
        rw [if_neg (by omega : ¬ y < z), if_pos hzy] at h2
        exact Bool.noConfusion h2
      have hxz : x < z := by
        by_cases h : y < z
        · omega
        · have : y = z := by omega
          omega
      rw [if_pos hxz]
    · by_cases hyx : y < x
      · rw [if_neg hxy, if_pos hyx] at h1
        exact Bool.noConfusion h1
      · have hxy' : x = y := by omega
        subst hxy'
        rw [if_neg hxy, if_neg hyx] at h1
        by_cases hxz : x < z
        · rw [if_pos hxz]
        · by_cases hzx : z < x
          · rw [if_neg hxz, if_pos hzx] at h2
            exact Bool.noConfusion h2
          · rw [if_neg hxz, if_neg hzx] at h2 ⊢
            exact lexLe_trans xs ys zs h1 h2

theorem periodKeyLe_trans (a b c : Period) :
    periodKeyLe a b → periodKeyLe b c → periodKeyLe a c := by
  unfold periodKeyLe
  exact lexLe_trans (periodKey a) (periodKey b) (periodKey c)

theorem periodKeyLe_total (a b : Period) : (periodKeyLe a b || periodKeyLe b a) = true :=
  lexLe_total (periodKey a) (periodKey b)

/-- C4: the `speakable` pipeline stable-sorts by (date, start time) —
the sorted list is ordered by the key and periods with identical keys keep
their relative input order (the filter by any fixed key is unchanged) —
then drops `Standard` periods, keeps only periods dated `today`, renders
one line per survivor in order and joins with newlines; when nothing
survives the result is the empty string. -/
theorem speakable_pipeline_spec (ps : List Period) (today : Date) :
    (ps.mergeSort periodKeyLe).Pairwise (fun a b => periodKeyLe a b = true)
    ∧ (∀ k : List Nat,
        (ps.mergeSort periodKeyLe).filter (fun p => periodKey p == k)
          = ps.filter (fun p => periodKey p == k))
    ∧ speakable ps today = String.intercalate "\n"
        ((((ps.mergeSort periodKeyLe).filter
            (fun p => p.state != PeriodState.Standard)).filter
          (fun p => p.date == today)).map Period.speakable_text)
    ∧ ((∀ p ∈ ps, ¬(p.state ≠ PeriodState.Standard ∧ p.date = today)) →
        speakable ps today = "") := by
  refine ⟨List.sorted_mergeSort @periodKeyLe_trans periodKeyLe_total ps, ?_, rfl, ?_⟩
  · intro k
    have hsub : List.Sublist (ps.filter (fun p => periodKey p == k)) ps :=
      List.filter_sublist ps
    have hpair : (ps.filter (fun p => periodKey p == k)).Pairwise
        (fun a b => periodKeyLe a b = true) := by
      apply List.pairwise_of_forall_mem_list
      intro a ha b hb
      have hak : periodKey a = k := by
        have := (List.mem_filter.mp ha).2
        exact beq_iff_eq.mp this
      have hbk : periodKey b = k := by
        have := (List.mem_filter.mp hb).2
        exact beq_iff_eq.mp this
      unfold periodKeyLe
      rw [hak, hbk]
      exact lexLe_refl k
    have hstab := List.sublist_mergeSort @periodKeyLe_trans periodKeyLe_total hpair hsub
    have hself : (ps.filter (fun p => periodKey p == k)).filter
        (fun p => periodKey p == k) = ps.filter (fun p => periodKey p == k) :=
      List.filter_eq_self.mpr (fun a ha => (List.mem_filter.mp ha).2)
    have hsub2 : List.Sublist (ps.filter (fun p => periodKey p == k))
        ((ps.mergeSort periodKeyLe).filter (fun p => periodKey p == k)) := by
      have := hstab.filter (fun p => periodKey p == k)
      rwa [hself] at this
    have hperm : List.Perm
        ((ps.mergeSort periodKeyLe).filter (fun p => periodKey p == k))
        (ps.filter (fun p => periodKey p == k)) :=
      (List.mergeSort_perm ps periodKeyLe).filter _
    exact (hsub2.eq_of_length hperm.length_eq.symm).symm
  · intro h
    unfold speakable
    have hnil : ((ps.mergeSort periodKeyLe).filter
        (fun p => p.state != PeriodState.Standard)).filter
          (fun p => p.date == today) = [] := by
      rw [List.filter_filter]
      apply List.filter_eq_nil_iff.mpr
      intro a ha
      have hmem : a ∈ ps := List.mem_mergeSort.mp ha
      have := h a hmem
      simp only [Bool.and_eq_true, beq_iff_eq, bne_iff_ne, ne_eq]
      intro hcontra
      exact this ⟨hcontra.2, hcontra.1⟩
    dsimp only
    rw [hnil]
    rfl

set_option maxRecDepth 4000 in
/-- C4 witness: two substitution periods sharing (date, start time) keep
their input order through the pipeline and render two newline-joined
lines; with a reference date matching no period the output is empty. -/
theorem speakable_pipeline_spec_witness :
    periodKey samplePeriod = periodKey scenarioPeriod
    ∧ ([samplePeriod, scenarioPeriod].mergeSort periodKeyLe).filter
        (fun p => periodKey p == periodKey samplePeriod)
      = [samplePeriod, scenarioPeriod].filter
        (fun p => periodKey p == periodKey samplePeriod)
    ∧ speakable [samplePeriod, scenarioPeriod] ⟨2026, 10, 12⟩ =
        "Änderung bei Mathematik zwischen 10:00 und 10:50 Uhr: Lehrerwechsel von 'Alice' zu 'Alice'; Vertretung\nÄnderung bei Physik zwischen 10:00 und 10:50 Uhr: Lehrerwechsel von 'Müller' zu 'Schmidt'; Vertretung"
    ∧ speakable [samplePeriod, scenarioPeriod] ⟨2026, 10, 13⟩ = "" := by
  have hsorted : ([samplePeriod, scenarioPeriod] : List Period).Pairwise
      (fun a b => periodKeyLe a b = true) := by
    constructor
    · intro b hb
      rcases List.mem_cons.mp hb with rfl | hb'
      · decide
      · exact absurd hb' (List.not_mem_nil b)
    · constructor
      · intro b hb
        exact absurd hb (List.not_mem_nil b)
      · constructor
  have hms : [samplePeriod, scenarioPeriod].mergeSort periodKeyLe =
      [samplePeriod, scenarioPeriod] := List.mergeSort_of_sorted hsorted
  refine ⟨by decide, ?_, ?_, ?_⟩
  · exact (speakable_pipeline_spec [samplePeriod, scenarioPeriod] ⟨2026, 10, 12⟩).2.1
      (periodKey samplePeriod)
  · have h := (speakable_pipeline_spec [samplePeriod, scenarioPeriod] ⟨2026, 10, 12⟩).2.2.1
    rw [h, hms]
    decide
  · exact (speakable_pipeline_spec [samplePeriod, scenarioPeriod] ⟨2026, 10, 13⟩).2.2.2
      (by decide)
